import Mathlib

/-!
Verification development for the emulator-fleet orchestration core
(resource monitor, lifecycle manager, five-phase batch orchestrator).

The Python source is shallowly embedded as executable Lean functions:

* pure numeric logic (load classification, batch-size computation) is
  translated directly, with Python floats modelled as rationals and
  Python `int(...)` modelled as truncation toward zero (`pyInt`);
* stateful components thread explicit state records
  (`MonState` for the resource monitor, `MgrState` for the lifecycle
  manager) and consult an explicit environment record describing the
  external world (raw host metrics, ldconsole command outcomes, ADB
  probe outcomes, job outcomes);
* external `ldconsole` command invocations are recorded in a trace
  (mirroring the source's logging of every issued command), so that
  claims about which commands are issued can be stated;
* physical time is modelled as a natural-number clock advanced by the
  source's explicit `time.sleep` calls; command execution itself is
  modelled as instantaneous;
* thread pools (`ThreadPoolExecutor` with `as_completed`) are
  determinized to sequential execution in submission order; the claims
  below do not depend on completion order;
* Python exception handlers guarding code that cannot raise in this
  deterministic model are omitted (their bodies are dead in the model).
-/

namespace BLord

/- Batteries marks the rational-number operations irreducible, which blocks
kernel evaluation of the executable definitions below on concrete inputs;
restore default reducibility for this file. -/
attribute [local semireducible] Rat.mul Rat.add Rat.sub Rat.inv

/-! ### Python `int()` on a nonnegative/negative rational (truncation toward zero) -/

def pyInt (q : ℚ) : ℤ :=
  if 0 ≤ q then q.floor else -((-q).floor)

/-! ## Resource monitor (src/utils/resource_monitor.py) -/

/-- Load level classification values used by the monitor.  The source uses the
strings 'low' / 'medium' / 'high' / 'critical' / 'unknown'. -/
inductive LoadLevel where
  | low
  | medium
  | high
  | critical
  | unknown
deriving DecidableEq, Repr

/-- Resource thresholds (`self.thresholds`), configuration with documented
defaults. -/
structure Thresholds where
  cpu_warning : ℚ
  cpu_critical : ℚ
  memory_warning : ℚ
  memory_critical : ℚ
  disk_warning : ℚ
  disk_critical : ℚ
deriving DecidableEq, Repr

/-- The documented default thresholds (`self.default_thresholds`). -/
def defaultThresholds : Thresholds :=
  { cpu_warning := 70, cpu_critical := 85
    memory_warning := 75, memory_critical := 90
    disk_warning := 85, disk_critical := 95 }

/-- Embedding of `ResourceMonitor._determine_load_level` (the body of the
`try`; the `except` branch is dead in this exception-free model). -/
def determine_load_level (th : Thresholds) (cpu mem disk : ℚ) : LoadLevel :=
  if cpu ≥ th.cpu_critical ∨ mem ≥ th.memory_critical ∨ disk ≥ th.disk_critical then
    LoadLevel.critical
  else if cpu ≥ th.cpu_warning ∨ mem ≥ th.memory_warning ∨ disk ≥ th.disk_warning then
    LoadLevel.high
  else if (cpu + mem + disk) / 3 > 50 then
    LoadLevel.medium
  else
    LoadLevel.low

/-- Embedding of the dataclass `SystemLoad`.  The timestamp is the model
clock value at sampling time. -/
structure SystemLoad where
  timestamp : Nat
  cpu_percent : ℚ
  memory_percent : ℚ
  memory_available_gb : ℚ
  disk_percent : ℚ
  disk_free_gb : ℚ
  ldplayer_processes : Nat
  ldplayer_memory_mb : ℚ
  active_emulators : Nat
  load_level : LoadLevel
deriving DecidableEq, Repr

/-- Raw host metrics delivered by `psutil` plus the LDPlayer process scan,
as consumed by `get_system_load` on a successful sample. -/
structure RawMetrics where
  cpu_percent : ℚ
  memory_percent : ℚ
  memory_available_gb : ℚ
  disk_percent : ℚ
  disk_free_gb : ℚ
  ldplayer_processes : Nat
  ldplayer_memory_mb : ℚ
  active_emulators : Nat
deriving DecidableEq, Repr

/-- External world seen by the resource monitor: the metrics obtainable at a
given model time.  `none` models a metric-collection failure (the `except`
branch of `get_system_load`). -/
structure MonEnv where
  metrics : Nat → Option RawMetrics

/-- Mutable state of a `ResourceMonitor` instance: the snapshot cache
(`self.cache['system_load']`, stored with the time it was cached at) and the
rolling history (`self.history`). -/
structure MonState where
  cache : Option (Nat × SystemLoad)
  history : List SystemLoad
deriving DecidableEq, Repr

/-- Embedding of `ResourceMonitor._add_to_history` (append, then evict the
oldest entry past the capacity of 100). -/
def add_to_history (h : List SystemLoad) (sl : SystemLoad) : List SystemLoad :=
  let h' := h ++ [sl]
  if 100 < h'.length then h'.drop 1 else h'

/-- The maximally conservative snapshot returned by `get_system_load` when
metric collection fails. -/
def unknownLoad (t : Nat) : SystemLoad :=
  { timestamp := t, cpu_percent := 0, memory_percent := 0, memory_available_gb := 0
    disk_percent := 0, disk_free_gb := 0, ldplayer_processes := 0
    ldplayer_memory_mb := 0, active_emulators := 0, load_level := LoadLevel.unknown }

/-- Fresh sampling path of `get_system_load` (cache miss or stale cache):
sample the environment, classify, cache and append to history on success;
return the conservative `unknown` snapshot on failure. -/
def sampleSystemLoad (env : MonEnv) (th : Thresholds) (t : Nat) (s : MonState) :
    SystemLoad × MonState :=
  match env.metrics t with
  | some m =>
      let sl : SystemLoad :=
        { timestamp := t
          cpu_percent := m.cpu_percent
          memory_percent := m.memory_percent
          memory_available_gb := m.memory_available_gb
          disk_percent := m.disk_percent
          disk_free_gb := m.disk_free_gb
          ldplayer_processes := m.ldplayer_processes
          ldplayer_memory_mb := m.ldplayer_memory_mb
          active_emulators := m.active_emulators
          load_level := determine_load_level th m.cpu_percent m.memory_percent m.disk_percent }
      (sl, { cache := some (t, sl), history := add_to_history s.history sl })
  | none => (unknownLoad t, s)

/-- Embedding of `ResourceMonitor.get_system_load` with its 30-second cache
TTL.  `t` is the current model time. -/
def get_system_load (env : MonEnv) (th : Thresholds) (useCache : Bool) (t : Nat)
    (s : MonState) : SystemLoad × MonState :=
  match s.cache with
  | some (t0, data) =>
      if useCache ∧ t - t0 < 30 then (data, s) else sampleSystemLoad env th t s
  | none => sampleSystemLoad env th t s

/-! ### Trend analysis -/

inductive Trend where
  | increasing
  | decreasing
  | stable
deriving DecidableEq, Repr

/-- Embedding of `ResourceMonitor._calculate_trend`.  Note the source's
asymmetric slicing: `values[:len(values) // 3]` but
`values[-len(values) // 3:]`, where `-len(values) // 3` is Python floor
division, so the last slice keeps `ceil(len/3)` elements.  Division by a zero
first-third average raises `ZeroDivisionError` in the source, caught by the
handler which returns 'stable'. -/
def calculate_trend (values : List ℚ) : Trend :=
  if values.length < 3 then Trend.stable
  else
    let firstThird := values.take (values.length / 3)
    let lastCount := ((values.length + 2) / 3)
    let lastThird := values.drop (values.length - lastCount)
    let firstAvg := firstThird.sum / firstThird.length
    let lastAvg := lastThird.sum / lastThird.length
    if firstAvg = 0 then Trend.stable
    else
      let diffPercent := (lastAvg - firstAvg) / firstAvg * 100
      if diffPercent > 10 then Trend.increasing
      else if diffPercent < -10 then Trend.decreasing
      else Trend.stable

/-- Trend triple returned by `_analyze_trends`. -/
structure Trends where
  cpu_trend : Trend
  memory_trend : Trend
  disk_trend : Trend
deriving DecidableEq, Repr

/-- Embedding of `ResourceMonitor._analyze_trends` (all stable below 5
history entries; otherwise analyze the last 10 entries). -/
def analyze_trends (history : List SystemLoad) : Trends :=
  if history.length < 5 then
    { cpu_trend := Trend.stable, memory_trend := Trend.stable, disk_trend := Trend.stable }
  else
    let recent := history.drop (history.length - 10)
    { cpu_trend := calculate_trend (recent.map SystemLoad.cpu_percent)
      memory_trend := calculate_trend (recent.map SystemLoad.memory_percent)
      disk_trend := calculate_trend (recent.map SystemLoad.disk_percent) }

/-! ### Batch sizing -/

/-- Base batch sizes by profile in `get_optimal_batch_size`
(`base_batch_sizes.get(profile, 3)`). -/
def base_batch_size (profile : String) : ℤ :=
  if profile = "rushing" then 2
  else if profile = "developing" then 3
  else if profile = "farming" then 5
  else if profile = "dormant" then 8
  else if profile = "emergency" then 1
  else 3

/-- Load multiplier in `get_optimal_batch_size`; the `else` branch covers
both 'critical' and 'unknown'.  The Python float literals 1.5 / 1.0 / 0.6 /
0.3 are modelled as exact rationals; for every reachable base size
(1, 2, 3, 5, 8) the truncated product agrees with the double-precision
computation. -/
def load_multiplier (l : LoadLevel) : ℚ :=
  match l with
  | LoadLevel.low => 3 / 2
  | LoadLevel.medium => 1
  | LoadLevel.high => 3 / 5
  | _ => 3 / 10

/-- Embedding of `_get_memory_requirement_by_profile` (MB). -/
def memory_requirement_by_profile (profile : String) : ℚ :=
  if profile = "rushing" then 4096
  else if profile = "developing" then 3072
  else if profile = "farming" then 2048
  else if profile = "dormant" then 1024
  else if profile = "emergency" then 4096
  else 2048

/-- Embedding of `_get_max_emulators_by_profile`. -/
def max_emulators_by_profile (profile : String) : ℤ :=
  if profile = "rushing" then 4
  else if profile = "developing" then 6
  else if profile = "farming" then 10
  else if profile = "dormant" then 20
  else if profile = "emergency" then 2
  else 5

/-- Embedding of `_get_max_safe_batch_size`.  Only the snapshot's load level
is consulted.  The final `else` branch (commented `# low` in the source) also
receives the 'unknown' level. -/
def max_safe_batch_size (l : LoadLevel) (profile : String) : ℤ :=
  match l with
  | LoadLevel.critical => 0
  | LoadLevel.high => 1
  | LoadLevel.medium => 3
  | _ => max_emulators_by_profile profile

/-- Embedding of `ResourceMonitor.get_optimal_batch_size`: base size scaled
by the load multiplier, clamped by the memory-derived ceiling and the
profile's instance ceiling, floored at 1. -/
def get_optimal_batch_size (env : MonEnv) (th : Thresholds) (profile : String) (t : Nat)
    (s : MonState) : ℤ × MonState :=
  let (sl, s) := get_system_load env th true t s
  let baseSize := base_batch_size profile
  let optimalSize := pyInt ((baseSize : ℚ) * load_multiplier sl.load_level)
  let memPer := memory_requirement_by_profile profile
  let maxByMemory := pyInt (sl.memory_available_gb * 1024 * (7 / 10) / memPer)
  let maxByLimit := max 0 (max_emulators_by_profile profile - (sl.active_emulators : ℤ))
  (max 1 (min optimalSize (min maxByMemory maxByLimit)), s)

/-! ### Admission control -/

/-- Warning messages appended by `is_safe_to_start_batch`, one constructor
per `warnings.append` site, carrying the numeric payloads interpolated into
the source's message strings. -/
inductive MonWarning where
  | criticalLoad (cpu mem : ℚ)
  | highLoad (cpu mem : ℚ)
  | notEnoughMemory (needed available : ℚ)
  | cpuTrendRising
  | memTrendRising
  | batchTooBig (requested maxSafe : ℤ)
deriving DecidableEq, Repr

/-- Actions appended by `is_safe_to_start_batch`, one constructor per
`actions_needed.append` site. -/
inductive MonAction where
  | stopNonUrgent
  | lowerActiveProfiles
  | profileLowered (fromP toP : String)
  | reduceBatchOrStop
  | reduceBatchTo (n : ℤ)
deriving DecidableEq, Repr

/-- Embedding of the dataclass `BatchRecommendation`. -/
structure BatchRecommendation where
  safe_to_start : Bool
  optimal_batch_size : ℤ
  max_batch_size : ℤ
  recommended_profile : String
  warnings : List MonWarning
  actions_needed : List MonAction
deriving DecidableEq, Repr

/-- Embedding of `ResourceMonitor.is_safe_to_start_batch`.  The source
initializes `safe_to_start = True` and assigns `False` at three sites
(critical load, memory shortfall, batch above the safe maximum); that
sequential flag is rendered here as the conjunction of the three
negated rejection conditions.  Warnings and actions are appended at the same
sites and in the same order as the source; each list below concatenates the
per-site contributions in source order. -/
def is_safe_to_start_batch (env : MonEnv) (th : Thresholds) (batchSize : ℤ)
    (profile : String) (t : Nat) (s : MonState) : BatchRecommendation × MonState :=
  let (sl, s) := get_system_load env th true t s
  -- current load analysis: the high-load branch downgrades the profile a tier
  let recommendedProfile :=
    if sl.load_level = LoadLevel.high then
      if profile = "rushing" then "developing"
      else if profile = "developing" then "farming"
      else profile
    else profile
  -- available memory check
  let totalMemoryNeeded := memory_requirement_by_profile profile * (batchSize : ℚ)
  let memoryShort := sl.memory_available_gb * 1024 < totalMemoryNeeded
  -- load trends (computed on the history before the optimal-size call)
  let trends := analyze_trends s.history
  -- optimal and maximal batch size
  let (optimalBatchSize, s) := get_optimal_batch_size env th profile t s
  let maxBatchSize := max_safe_batch_size sl.load_level profile
  -- final safety check
  let tooBig := batchSize > maxBatchSize
  let warnings : List MonWarning :=
    (if sl.load_level = LoadLevel.critical then
       [MonWarning.criticalLoad sl.cpu_percent sl.memory_percent]
     else if sl.load_level = LoadLevel.high then
       [MonWarning.highLoad sl.cpu_percent sl.memory_percent]
     else [])
    ++ (if memoryShort then
          [MonWarning.notEnoughMemory totalMemoryNeeded (sl.memory_available_gb * 1024)]
        else [])
    ++ (if trends.cpu_trend = Trend.increasing ∧ sl.cpu_percent > 60 then
          [MonWarning.cpuTrendRising]
        else [])
    ++ (if trends.memory_trend = Trend.increasing ∧ sl.memory_percent > 70 then
          [MonWarning.memTrendRising]
        else [])
    ++ (if tooBig then [MonWarning.batchTooBig batchSize maxBatchSize] else [])
  let actions : List MonAction :=
    (if sl.load_level = LoadLevel.critical then
       [MonAction.stopNonUrgent, MonAction.lowerActiveProfiles]
     else if sl.load_level = LoadLevel.high then
       (if profile = "rushing" then [MonAction.profileLowered "rushing" "developing"]
        else if profile = "developing" then [MonAction.profileLowered "developing" "farming"]
        else [])
     else [])
    ++ (if memoryShort then [MonAction.reduceBatchOrStop] else [])
    ++ (if tooBig then [MonAction.reduceBatchTo maxBatchSize] else [])
  ({ safe_to_start :=
       ¬(sl.load_level = LoadLevel.critical) ∧ ¬memoryShort ∧ ¬tooBig
     optimal_batch_size := optimalBatchSize
     max_batch_size := maxBatchSize
     recommended_profile := recommendedProfile
     warnings := warnings
     actions_needed := actions }, s)

/-! ## Lifecycle manager (src/utils/ldconsole_manager.py) -/

/-- Commands issued to the external `ldconsole` control surface.  The three
launch dialects tried by `start_emulator` ('launch', 'launchex', 'start') are
numbered 0, 1, 2. -/
inductive LCmd where
  | list2
  | launch (dialect : Nat) (idx : Nat)
  | quit (idx : Nat)
  | killall
  | modifyCpu (idx : Nat) (cpu : Nat)
  | modifyMemory (idx : Nat) (memory : Nat)
  | modifyResolution (idx : Nat) (w h : Nat)
deriving DecidableEq, Repr

/-- Events recorded by the manager: every `_run_ldconsole_command`
invocation, plus the entry log line of `stop_batch` (which records the
requested index list and the force flag). -/
inductive TraceEv where
  | cmd (c : LCmd)
  | stopBatchCall (ids : List Nat) (force : Bool)
deriving DecidableEq, Repr

/-- Outcome of one `ldconsole` command: success flag (non-zero exit, timeout
and exception are all folded into `success = false` by the source),
`list2` output rows as parsed pairs (emulator index, running flag), and the
measured execution time (data only; the model clock is advanced only by
explicit sleeps). -/
structure CmdOutcome where
  success : Bool
  rows : List (Nat × Bool)
  execTime : ℚ
deriving DecidableEq, Repr

/-- External world seen by the lifecycle manager: ldconsole command outcomes
and ADB probe outcomes, all indexed by the model time. -/
structure MgrEnv where
  exec : Nat → LCmd → CmdOutcome
  adbTest : Nat → Nat → Bool
  adbDevices : Nat → Option Nat

/-- Per-instance cached state (`self.running_emulators[index]`). -/
inductive EmuStatus where
  | running
  | stopped
  | unknownSt
deriving DecidableEq, Repr

structure CacheEntry where
  status : EmuStatus
  last_check : Nat
  adb_port : Option Nat
deriving DecidableEq, Repr

/-- Mutable state of a `LDConsoleManager` instance plus the model clock and
the command trace. -/
structure MgrState where
  cache : Nat → Option CacheEntry
  time : Nat
  trace : List TraceEv

/-- Embedding of `_run_ldconsole_command`: record the command in the trace
and return the environment's outcome at the current time. -/
def run_ldconsole_command (env : MgrEnv) (c : LCmd) (s : MgrState) :
    CmdOutcome × MgrState :=
  (env.exec s.time c, { s with trace := TraceEv.cmd c :: s.trace })

/-- Embedding of `time.sleep(n)`: advance the model clock. -/
def msleep (n : Nat) (s : MgrState) : MgrState :=
  { s with time := s.time + n }

/-- Embedding of `_get_adb_port_by_index`: test the standard port
`5554 + 2*index` first, then fall back to scanning `adb devices` output
(abstracted as an environment query). -/
def get_adb_port_by_index (env : MgrEnv) (t idx : Nat) : Option Nat :=
  let standardPort := 5554 + idx * 2
  if env.adbTest t standardPort then some standardPort
  else env.adbDevices t

/-- Embedding of `is_running`: answer from the cache when it is fresher than
the 60-second TTL and `force_check` is off; otherwise issue a live `list2`
query, update the cache on a parsable outcome, and treat both a failed query
and an absent row as "stopped".  A failed query leaves the cache untouched;
an absent row downgrades an existing entry to stopped. -/
def is_running (env : MgrEnv) (idx : Nat) (forceCheck : Bool) (s : MgrState) :
    Bool × MgrState :=
  let cachedAnswer : Option Bool :=
    if forceCheck then none
    else
      match s.cache idx with
      | some e => if s.time - e.last_check < 60 then some (e.status = EmuStatus.running) else none
      | none => none
  match cachedAnswer with
  | some b => (b, s)
  | none =>
    let (r, s) := run_ldconsole_command env LCmd.list2 s
    if r.success = false then (false, s)
    else
      match r.rows.find? (fun row => row.1 = idx) with
      | some row =>
        let flag := row.2
        let entry : CacheEntry :=
          { status := if flag then EmuStatus.running else EmuStatus.stopped
            last_check := s.time
            adb_port := if flag then get_adb_port_by_index env s.time idx else none }
        (flag, { s with cache := Function.update s.cache idx (some entry) })
      | none =>
        let newCache : Nat → Option CacheEntry := fun j =>
          if j = idx then
            (s.cache idx).map (fun e => { e with status := EmuStatus.stopped, last_check := s.time })
          else s.cache j
        (false, { s with cache := newCache })

/-- Minimal embedding of `get_emulator_info`: issues one `list2` query and
returns the row for the requested index, if any.  In `start_emulator` the
result only feeds log output. -/
def get_emulator_info (env : MgrEnv) (idx : Nat) (s : MgrState) :
    Option (Nat × Bool) × MgrState :=
  let (r, s) := run_ldconsole_command env LCmd.list2 s
  if r.success = false then (none, s)
  else (r.rows.find? (fun row => row.1 = idx), s)

/-! ### Readiness polling for a single instance -/

/-- Result record of `_wait_emulator_ready`. -/
structure WaitReadyResult where
  success : Bool
  wait_time : Nat
  adb_port : Option Nat
  stoppedUnexpectedly : Bool
deriving DecidableEq, Repr

/-- One polling loop of `_wait_emulator_ready`, as fuel-based recursion.
Each iteration sleeps at least 2 seconds (progressive backoff 2/3/5 by check
count), so `timeout.toNat + 1` units of fuel are never exhausted; fuel
exhaustion is mapped to the loop's timeout exit. -/
def wait_ready_loop (env : MgrEnv) (idx : Nat) (startTime : Nat) (timeout : ℤ)
    (checkCount : Nat) : Nat → MgrState → WaitReadyResult × MgrState
  | 0, s =>
      ({ success := false, wait_time := s.time - startTime, adb_port := none
         stoppedUnexpectedly := false }, s)
  | fuel + 1, s =>
      if ((s.time : ℤ) - (startTime : ℤ)) < timeout then
        let checkCount := checkCount + 1
        let (running, s) := is_running env idx true s
        if running = false then
          ({ success := false, wait_time := s.time - startTime, adb_port := none
             stoppedUnexpectedly := true }, s)
        else
          match get_adb_port_by_index env s.time idx with
          | some port =>
              if env.adbTest s.time port then
                ({ success := true, wait_time := s.time - startTime, adb_port := some port
                   stoppedUnexpectedly := false }, s)
              else
                let sleepTime := if checkCount ≤ 5 then 2 else if checkCount ≤ 10 then 3 else 5
                wait_ready_loop env idx startTime timeout checkCount fuel (msleep sleepTime s)
          | none =>
              let sleepTime := if checkCount ≤ 5 then 2 else if checkCount ≤ 10 then 3 else 5
              wait_ready_loop env idx startTime timeout checkCount fuel (msleep sleepTime s)
      else
        ({ success := false, wait_time := s.time - startTime, adb_port := none
           stoppedUnexpectedly := false }, s)

/-- Embedding of `_wait_emulator_ready`. -/
def wait_emulator_ready (env : MgrEnv) (idx : Nat) (timeout : ℤ) (s : MgrState) :
    WaitReadyResult × MgrState :=
  wait_ready_loop env idx s.time timeout 0 (timeout.toNat + 1) s

/-! ### Starting a single instance -/

/-- Result record of `start_emulator`. -/
structure StartResult where
  success : Bool
  already_running : Bool
  start_time : ℚ
  adb_ready_time : Nat
  adb_port : Option Nat
deriving DecidableEq, Repr

/-- The dialect loop of `start_emulator`: try 'launch', then 'launchex',
then 'start', stopping at the first success. -/
def try_launch_dialects (env : MgrEnv) (idx : Nat) (s : MgrState) :
    (Bool × ℚ) × MgrState :=
  let (r0, s) := run_ldconsole_command env (LCmd.launch 0 idx) s
  if r0.success then ((true, r0.execTime), s)
  else
    let (r1, s) := run_ldconsole_command env (LCmd.launch 1 idx) s
    if r1.success then ((true, r1.execTime), s)
    else
      let (r2, s) := run_ldconsole_command env (LCmd.launch 2 idx) s
      ((r2.success, r2.execTime), s)

/-- The portion of `start_emulator` after the already-running early return:
launch with dialect fallback, 10-second initial grace then a forced liveness
check, 15 further seconds if still not live, optional readiness wait, and
the final cache update. -/
def start_emulator_launch (env : MgrEnv) (idx : Nat) (waitReady : Bool) (timeout : ℤ)
    (s : MgrState) : StartResult × MgrState :=
  let (_, s) := get_emulator_info env idx s
  let ((cmdOk, execTime), s) := try_launch_dialects env idx s
  if cmdOk = false then
    ({ success := false, already_running := false, start_time := 0, adb_ready_time := 0
       adb_port := none }, s)
  else
    let s := msleep 10 s
    let (initialCheck, s) := is_running env idx true s
    let (alive, s) :=
      if initialCheck then (true, s)
      else
        let s := msleep 15 s
        is_running env idx true s
    if alive = false then
      ({ success := false, already_running := false, start_time := execTime
         adb_ready_time := 0, adb_port := none }, s)
    else
      let (success, adbReadyTime, adbPort, s) :=
        if waitReady then
          let (ready, s) := wait_emulator_ready env idx (timeout - 25) s
          (ready.success, ready.wait_time, ready.adb_port, s)
        else (true, 0, none, s)
      let entry : CacheEntry :=
        { status := if success then EmuStatus.running else EmuStatus.unknownSt
          last_check := s.time
          adb_port := adbPort }
      ({ success := success, already_running := false, start_time := execTime
         adb_ready_time := adbReadyTime, adb_port := adbPort },
       { s with cache := Function.update s.cache idx (some entry) })

/-- Embedding of `start_emulator`: early return with `already_running` when
the instance is live, otherwise the launch path. -/
def start_emulator (env : MgrEnv) (idx : Nat) (waitReady : Bool) (timeout : ℤ)
    (s : MgrState) : StartResult × MgrState :=
  let (running, s) := is_running env idx false s
  if running then
    ({ success := true, already_running := true, start_time := 0, adb_ready_time := 0
       adb_port := get_adb_port_by_index env s.time idx }, s)
  else
    start_emulator_launch env idx waitReady timeout s

/-! ### Stopping a single instance -/

/-- Result record of `stop_emulator`. -/
structure StopResult where
  success : Bool
  was_running : Bool
  stop_time : ℚ
deriving DecidableEq, Repr

/-- Embedding of `stop_emulator`: early success on an already-stopped
instance; otherwise issue `quit` (or `killall` when forced), settle for 2
seconds, and trust a liveness re-probe over the command's own exit code.
The cache entry is deleted only on a confirmed stop. -/
def stop_emulator (env : MgrEnv) (idx : Nat) (force : Bool) (_timeout : ℤ)
    (s : MgrState) : StopResult × MgrState :=
  let (running, s) := is_running env idx false s
  if running = false then
    ({ success := true, was_running := false, stop_time := 0 }, s)
  else
    let c := if force then LCmd.killall else LCmd.quit idx
    let (r, s) := run_ldconsole_command env c s
    if r.success then
      let s := msleep 2 s
      let (still, s) := is_running env idx false s
      if still = false then
        ({ success := true, was_running := true, stop_time := r.execTime },
         { s with cache := Function.update s.cache idx none })
      else
        ({ success := false, was_running := true, stop_time := r.execTime }, s)
    else
      ({ success := false, was_running := true, stop_time := r.execTime }, s)

/-! ### Batch start -/

/-- Aggregate result of `start_batch`. -/
structure BatchStartResult where
  success : Bool
  total_requested : Nat
  started_successfully : Nat
  already_running : Nat
  failed : Nat
  results : List (Nat × StartResult)
deriving DecidableEq, Repr

/-- Submission loop of `start_batch`, determinized to sequential execution in
submission order: a stagger delay before every submission beyond the first,
then `start_emulator` with `wait_ready=False`. -/
def start_batch_go (env : MgrEnv) (startDelay : Nat) (timeout : ℤ) :
    List Nat → Bool → BatchStartResult → MgrState → BatchStartResult × MgrState
  | [], _, acc, s => (acc, s)
  | idx :: rest, isFirst, acc, s =>
      let s := if isFirst then s else msleep startDelay s
      let (r, s) := start_emulator env idx false timeout s
      let acc :=
        { acc with
          results := acc.results ++ [(idx, r)]
          started_successfully :=
            acc.started_successfully + (if r.success ∧ r.already_running = false then 1 else 0)
          already_running :=
            acc.already_running + (if r.success ∧ r.already_running then 1 else 0)
          failed := acc.failed + (if r.success then 0 else 1) }
      start_batch_go env startDelay timeout rest false acc s

/-- Embedding of `start_batch`. -/
def start_batch (env : MgrEnv) (ids : List Nat) (_maxParallel startDelay : Nat)
    (timeout : ℤ) (s : MgrState) : BatchStartResult × MgrState :=
  let base : BatchStartResult :=
    { success := true, total_requested := ids.length, started_successfully := 0
      already_running := 0, failed := 0, results := [] }
  if ids = [] then (base, s)
  else
    let (acc, s) := start_batch_go env startDelay timeout ids true base s
    ({ acc with success := acc.failed = 0 }, s)

/-! ### Batch stop -/

/-- Per-instance record in `stop_batch` results. -/
structure BatchStopRecord where
  index : Nat
  success : Bool
  was_running : Bool
  stop_time : ℚ
deriving DecidableEq, Repr

/-- Aggregate result of `stop_batch`. -/
structure BatchStopResult where
  success : Bool
  total_requested : Nat
  stopped_successfully : Nat
  already_stopped : Nat
  failed : Nat
  results : List BatchStopRecord
deriving DecidableEq, Repr

/-- The per-instance verification loop of the forced path of `stop_batch`
(after a successful `killall`): settle 1 second per instance, then a forced
liveness probe. -/
def stop_batch_force_verify (env : MgrEnv) (killTime : ℚ) :
    List Nat → BatchStopResult → MgrState → BatchStopResult × MgrState
  | [], acc, s => (acc, s)
  | idx :: rest, acc, s =>
      let s := msleep 1 s
      let (running, s) := is_running env idx true s
      let acc :=
        if running = false then
          { acc with
            stopped_successfully := acc.stopped_successfully + 1
            results := acc.results ++
              [{ index := idx, success := true, was_running := true, stop_time := killTime }] }
        else
          { acc with
            failed := acc.failed + 1
            results := acc.results ++
              [{ index := idx, success := false, was_running := true, stop_time := killTime }] }
      stop_batch_force_verify env killTime rest acc s

/-- The individual-stop loop of the graceful path of `stop_batch`,
determinized to sequential execution. -/
def stop_batch_individual (env : MgrEnv) (timeout : ℤ) :
    List Nat → BatchStopResult → MgrState → BatchStopResult × MgrState
  | [], acc, s => (acc, s)
  | idx :: rest, acc, s =>
      let (r, s) := stop_emulator env idx false timeout s
      let acc :=
        { acc with
          results := acc.results ++
            [{ index := idx, success := r.success, was_running := r.was_running
               stop_time := r.stop_time }]
          stopped_successfully :=
            acc.stopped_successfully + (if r.success ∧ r.was_running then 1 else 0)
          already_stopped :=
            acc.already_stopped + (if r.success ∧ r.was_running = false then 1 else 0)
          failed := acc.failed + (if r.success then 0 else 1) }
      stop_batch_individual env timeout rest acc s

/-- Embedding of `stop_batch`.  The entry log line (recording the requested
index list and the force flag) is modelled as a trace event. -/
def stop_batch (env : MgrEnv) (ids : List Nat) (_maxParallel : Nat) (force : Bool)
    (timeout : ℤ) (s : MgrState) : BatchStopResult × MgrState :=
  let s := { s with trace := TraceEv.stopBatchCall ids force :: s.trace }
  let base : BatchStopResult :=
    { success := true, total_requested := ids.length, stopped_successfully := 0
      already_stopped := 0, failed := 0, results := [] }
  if ids = [] then (base, s)
  else
    let (acc, s) :=
      if force then
        let (kr, s) := run_ldconsole_command env LCmd.killall s
        if kr.success then stop_batch_force_verify env kr.execTime ids base s
        else
          (ids.foldl (fun acc idx =>
            { acc with
              failed := acc.failed + 1
              results := acc.results ++
                [{ index := idx, success := false, was_running := true, stop_time := 0 }] })
            base, s)
      else stop_batch_individual env timeout ids base s
    ({ acc with success := acc.failed = 0 }, s)

/-! ### Batch readiness -/

/-- The source distinguishes per-instance readiness outcomes through the
record's message string: ready, unexpectedly stopped, or timed out. -/
inductive ReadyMsg where
  | isReady
  | stoppedDuringWait
  | timedOut
deriving DecidableEq, Repr

/-- Per-instance record in `wait_batch_ready` results. -/
structure ReadyRecord where
  index : Nat
  ready : Bool
  adb_port : Option Nat
  wait_time : Nat
  msg : ReadyMsg
deriving DecidableEq, Repr

/-- Aggregate result of `wait_batch_ready`. -/
structure BatchReadyResult where
  success : Bool
  total_requested : Nat
  ready_emulators : Nat
  timeout_emulators : Nat
  failed_emulators : Nat
  results : List ReadyRecord
deriving DecidableEq, Repr

/-- One poll cycle of `wait_batch_ready`: check every pending instance in
order; an instance that unexpectedly stopped is recorded as failed, a
reachable instance as ready; both are collected into the removal list. -/
def ready_pass (env : MgrEnv) (elapsed : Nat) :
    List Nat → BatchReadyResult → MgrState →
    BatchReadyResult × List Nat × MgrState
  | [], acc, s => (acc, [], s)
  | idx :: rest, acc, s =>
      let (running, s) := is_running env idx false s
      if running = false then
        let acc :=
          { acc with
            failed_emulators := acc.failed_emulators + 1
            results := acc.results ++
              [{ index := idx, ready := false, adb_port := none, wait_time := elapsed
                 msg := ReadyMsg.stoppedDuringWait }] }
        let (acc, nr, s) := ready_pass env elapsed rest acc s
        (acc, idx :: nr, s)
      else
        match get_adb_port_by_index env s.time idx with
        | some port =>
            if env.adbTest s.time port then
              let acc :=
                { acc with
                  ready_emulators := acc.ready_emulators + 1
                  results := acc.results ++
                    [{ index := idx, ready := true, adb_port := some port, wait_time := elapsed
                       msg := ReadyMsg.isReady }] }
              let (acc, nr, s) := ready_pass env elapsed rest acc s
              (acc, idx :: nr, s)
            else ready_pass env elapsed rest acc s
        | none => ready_pass env elapsed rest acc s

/-- Polling loop of `wait_batch_ready`, as fuel-based recursion.  Each
iteration that leaves instances pending sleeps `interval` seconds, so with a
positive interval `timeout.toNat + 1` units of fuel are never exhausted; fuel
exhaustion is mapped to the loop's timeout exit (remaining instances are
returned as pending). -/
def wait_batch_loop (env : MgrEnv) (timeout : ℤ) (interval : Nat) (startTime : Nat) :
    Nat → List Nat → BatchReadyResult → MgrState →
    BatchReadyResult × List Nat × MgrState
  | 0, pending, acc, s => (acc, pending, s)
  | fuel + 1, pending, acc, s =>
      if pending ≠ [] ∧ ((s.time : ℤ) - (startTime : ℤ)) < timeout then
        let elapsed := s.time - startTime
        let (acc, newlyReady, s) := ready_pass env elapsed pending acc s
        let pending := newlyReady.foldl (fun p i => p.erase i) pending
        if pending ≠ [] then
          wait_batch_loop env timeout interval startTime fuel pending acc (msleep interval s)
        else (acc, pending, s)
      else (acc, pending, s)

/-- Embedding of `wait_batch_ready`: poll until ready, failed, or the
deadline; remaining pending instances are recorded as timed out. -/
def wait_batch_ready (env : MgrEnv) (ids : List Nat) (timeout : ℤ) (interval : Nat)
    (s : MgrState) : BatchReadyResult × MgrState :=
  let base : BatchReadyResult :=
    { success := true, total_requested := ids.length, ready_emulators := 0
      timeout_emulators := 0, failed_emulators := 0, results := [] }
  if ids = [] then (base, s)
  else
    let startTime := s.time
    let (acc, pending, s) := wait_batch_loop env timeout interval startTime
      (timeout.toNat + 1) ids base s
    let finalElapsed := s.time - startTime
    let acc := pending.foldl (fun acc idx =>
      { acc with
        timeout_emulators := acc.timeout_emulators + 1
        results := acc.results ++
          [{ index := idx, ready := false, adb_port := none, wait_time := finalElapsed
             msg := ReadyMsg.timedOut }] }) acc
    ({ acc with success := acc.timeout_emulators = 0 ∧ acc.failed_emulators = 0 }, s)

/-! ### Performance profiles -/

/-- A performance profile's resource bundle as read from the profile
catalog. -/
structure ProfileData where
  cpu : Option Nat
  memory : Option Nat
  fps : Option Nat
  resolution : Option (Nat × Nat)
deriving DecidableEq, Repr

/-- The default profile catalog created by
`_create_default_profiles_config`. -/
def defaultProfiles : List (String × ProfileData) :=
  [("rushing", { cpu := some 4, memory := some 4096, fps := some 60, resolution := some (540, 960) }),
   ("developing", { cpu := some 3, memory := some 3072, fps := some 45, resolution := some (540, 960) }),
   ("farming", { cpu := some 2, memory := some 2048, fps := some 30, resolution := some (540, 960) }),
   ("dormant", { cpu := some 1, memory := some 1024, fps := some 15, resolution := some (540, 960) }),
   ("emergency", { cpu := some 4, memory := some 4096, fps := some 60, resolution := some (540, 960) })]

/-- Result record of `modify_resources` (change lists abstracted to
counts). -/
structure ModifyResult where
  success : Bool
  changes_applied : Nat
  changes_failed : Nat
  restart_required : Bool
deriving DecidableEq, Repr

/-- Embedding of `modify_resources`: a liveness check only sets
`restart_required`; each requested change issues its own `modify` command;
overall success means at least one change was applied. -/
def modify_resources (env : MgrEnv) (idx : Nat) (cpu memory : Option Nat)
    (resolution : Option (Nat × Nat)) (s : MgrState) : ModifyResult × MgrState :=
  let (running, s) := is_running env idx false s
  let restartRequired := running
  let (applied, failedC, s) :=
    match cpu with
    | some c =>
        let (r, s) := run_ldconsole_command env (LCmd.modifyCpu idx c) s
        (if r.success then (1, 0, s) else (0, 1, s) : Nat × Nat × MgrState)
    | none => (0, 0, s)
  let (applied, failedC, s) :=
    match memory with
    | some m =>
        let (r, s) := run_ldconsole_command env (LCmd.modifyMemory idx m) s
        (if r.success then (applied + 1, failedC, s) else (applied, failedC + 1, s))
    | none => (applied, failedC, s)
  let (applied, failedC, s) :=
    match resolution with
    | some (w, h) =>
        let (r, s) := run_ldconsole_command env (LCmd.modifyResolution idx w h) s
        (if r.success then (applied + 1, failedC, s) else (applied, failedC + 1, s))
    | none => (applied, failedC, s)
  ({ success := 0 < applied, changes_applied := applied, changes_failed := failedC
     restart_required := restartRequired }, s)

/-- Result record of `apply_performance_profile`. -/
structure ProfileResult where
  success : Bool
  restart_required : Bool
deriving DecidableEq, Repr

/-- Embedding of `apply_performance_profile`: unknown profile name is a hard
error; otherwise a liveness check sets `restart_required` and the profile's
resource settings are forwarded to `modify_resources`. -/
def apply_performance_profile (env : MgrEnv) (profiles : List (String × ProfileData))
    (idx : Nat) (profileName : String) (s : MgrState) : ProfileResult × MgrState :=
  match profiles.lookup profileName with
  | none => ({ success := false, restart_required := false }, s)
  | some p =>
      let (running, s) := is_running env idx false s
      let restartRequired := running
      let (mr, s) := modify_resources env idx p.cpu p.memory p.resolution s
      ({ success := mr.success, restart_required := restartRequired }, s)

/-- Aggregate result of `apply_profile_to_batch`. -/
structure BatchProfileResult where
  success : Bool
  applied_successfully : Nat
  failed : Nat
  restart_required : List Nat
  results : List (Nat × ProfileResult)
deriving DecidableEq, Repr

/-- Loop body of `apply_profile_to_batch`, including the optional
stop/settle/start restart for instances that reported
`restart_required`. -/
def apply_profile_to_batch_go (env : MgrEnv) (profiles : List (String × ProfileData))
    (profileName : String) (restartIfNeeded : Bool) :
    List Nat → BatchProfileResult → MgrState → BatchProfileResult × MgrState
  | [], acc, s => (acc, s)
  | idx :: rest, acc, s =>
      let (pr, s) := apply_performance_profile env profiles idx profileName s
      let acc := { acc with results := acc.results ++ [(idx, pr)] }
      let (acc, s) :=
        if pr.success then
          let acc := { acc with applied_successfully := acc.applied_successfully + 1 }
          if pr.restart_required then
            let acc := { acc with restart_required := acc.restart_required ++ [idx] }
            if restartIfNeeded then
              let (sr, s) := stop_emulator env idx false 30 s
              if sr.success then
                let s := msleep 3 s
                let (_, s) := start_emulator env idx true 60 s
                (acc, s)
              else (acc, s)
            else (acc, s)
          else (acc, s)
        else ({ acc with failed := acc.failed + 1 }, s)
      apply_profile_to_batch_go env profiles profileName restartIfNeeded rest acc s

/-- Embedding of `apply_profile_to_batch`. -/
def apply_profile_to_batch (env : MgrEnv) (profiles : List (String × ProfileData))
    (ids : List Nat) (profileName : String) (restartIfNeeded : Bool) (s : MgrState) :
    BatchProfileResult × MgrState :=
  let base : BatchProfileResult :=
    { success := true, applied_successfully := 0, failed := 0
      restart_required := [], results := [] }
  let (acc, s) := apply_profile_to_batch_go env profiles profileName restartIfNeeded ids base s
  ({ acc with success := acc.failed = 0 }, s)

/-! ## Orchestrator (src/orchestrator.py) -/

/-- Registry view of one emulator as consumed by the orchestrator
(`{'index': ..., 'name': ..., 'adb_port': ...}`). -/
structure Emu where
  index : Nat
  name : String
  adb_port : Option Nat
deriving DecidableEq, Repr

/-- Warnings carried by a `BatchPlan`: the admission warnings from the
monitor plus the orchestrator's own appends. -/
inductive PlanWarning where
  | monitor (w : MonWarning)
  | noAvailableEmulators
  | systemNotReady
deriving DecidableEq, Repr

/-- Embedding of the dataclass `BatchPlan` (resource allocation abstracted
to its two totals). -/
structure BatchPlan where
  emulators : List Emu
  batch_size : ℤ
  recommended_profile : String
  estimated_duration : ℤ
  total_cpu_cores : ℤ
  total_memory_mb : ℤ
  warnings : List PlanWarning
  can_execute : Bool
deriving DecidableEq, Repr

/-- External collaborators of the orchestrator: the two component
environments, the monitor's thresholds, the profile catalog, the registry
(`discovery.get_enabled_emulators`) and the per-instance job runner
(`bot_worker` as a subprocess, abstracted to its exit status and
duration). -/
structure OrchEnv where
  mon : MonEnv
  mgr : MgrEnv
  thresholds : Thresholds
  profiles : List (String × ProfileData)
  enabled_emulators : Option String → List Emu
  job_ok : Nat → Nat → Bool
  job_duration : Nat → Nat → ℚ

/-- Combined orchestrator state: the lifecycle manager's state (which owns
the model clock and the command trace) and the resource monitor's state. -/
structure OrchState where
  mgr : MgrState
  mon : MonState

/-- Monitor call lifted to the orchestrator state (the monitor is queried at
the current model time). -/
def orch_get_system_load (env : OrchEnv) (s : OrchState) : SystemLoad × OrchState :=
  let (sl, mon) := get_system_load env.mon env.thresholds true s.mgr.time s.mon
  (sl, { s with mon := mon })

def orch_get_optimal_batch_size (env : OrchEnv) (profile : String) (s : OrchState) :
    ℤ × OrchState :=
  let (n, mon) := get_optimal_batch_size env.mon env.thresholds profile s.mgr.time s.mon
  (n, { s with mon := mon })

def orch_is_safe_to_start_batch (env : OrchEnv) (batchSize : ℤ) (profile : String)
    (s : OrchState) : BatchRecommendation × OrchState :=
  let (r, mon) := is_safe_to_start_batch env.mon env.thresholds batchSize profile
    s.mgr.time s.mon
  (r, { s with mon := mon })

/-- Embedding of `_determine_optimal_profile`; the `else` branch (commented
`# low`) also receives the 'unknown' level. -/
def determine_optimal_profile (l : LoadLevel) : String :=
  match l with
  | LoadLevel.critical => "dormant"
  | LoadLevel.high => "farming"
  | LoadLevel.medium => "developing"
  | _ => "rushing"

/-- Embedding of `_get_cpu_requirement`. -/
def get_cpu_requirement (profile : String) : ℤ :=
  if profile = "rushing" then 4
  else if profile = "developing" then 3
  else if profile = "farming" then 2
  else if profile = "dormant" then 1
  else if profile = "emergency" then 4
  else 2

/-- Embedding of `_get_memory_requirement`. -/
def get_memory_requirement (profile : String) : ℤ :=
  if profile = "rushing" then 4096
  else if profile = "developing" then 3072
  else if profile = "farming" then 2048
  else if profile = "dormant" then 1024
  else if profile = "emergency" then 4096
  else 2048

/-- Embedding of `_estimate_batch_duration`.  For a batch size of zero the
source raises `ZeroDivisionError`; in the model rational division by zero
yields zero.  Planning always produces a positive batch size when any
emulator is available, so the case is unreachable there. -/
def estimate_batch_duration (batchSize : ℤ) (profile : String) : ℤ :=
  let baseTime : ℚ :=
    if profile = "rushing" then 600
    else if profile = "developing" then 360
    else if profile = "farming" then 180
    else if profile = "dormant" then 120
    else if profile = "emergency" then 300
    else 300
  let maxParallel : ℚ := min 3 (batchSize : ℚ)
  let processingTime := ((batchSize : ℚ) / maxParallel) * baseTime
  pyInt (120 + processingTime + 60)

/-- Python list slicing `l[:n]` including the negative-bound case. -/
def pyTake (n : ℤ) (l : List Emu) : List Emu :=
  if 0 ≤ n then l.take n.toNat else l.take (l.length - (-n).toNat)

/-- Embedding of `_phase1_planning`: snapshot the load, select enabled
emulators, pick a profile (explicit filter or auto from the load level),
compute and clamp the batch size, run the admission check and assemble the
plan. -/
def phase1_planning (env : OrchEnv) (profileFilter : Option String)
    (maxEmulators : Option ℤ) (s : OrchState) : BatchPlan × OrchState :=
  let (sl, s) := orch_get_system_load env s
  let available := env.enabled_emulators profileFilter
  if available = [] then
    ({ emulators := [], batch_size := 0, recommended_profile := "farming"
       estimated_duration := 0, total_cpu_cores := 0, total_memory_mb := 0
       warnings := [PlanWarning.noAvailableEmulators], can_execute := false }, s)
  else
    let recommendedProfile :=
      match profileFilter with
      | none => determine_optimal_profile sl.load_level
      | some p => p
    let (optimalBatchSize, s) := orch_get_optimal_batch_size env recommendedProfile s
    let optimalBatchSize :=
      match maxEmulators with
      | some m => if m = 0 then optimalBatchSize else min optimalBatchSize m
      | none => optimalBatchSize
    let finalBatchSize := min optimalBatchSize (available.length : ℤ)
    let selected := pyTake finalBatchSize available
    let (safety, s) := orch_is_safe_to_start_batch env finalBatchSize recommendedProfile s
    let warnings := safety.warnings.map PlanWarning.monitor
    let canExecute := safety.safe_to_start
    let warnings :=
      if canExecute = false then warnings ++ [PlanWarning.systemNotReady] else warnings
    ({ emulators := selected
       batch_size := finalBatchSize
       recommended_profile := recommendedProfile
       estimated_duration := estimate_batch_duration finalBatchSize recommendedProfile
       total_cpu_cores := (selected.length : ℤ) * get_cpu_requirement recommendedProfile
       total_memory_mb := (selected.length : ℤ) * get_memory_requirement recommendedProfile
       warnings := warnings
       can_execute := canExecute }, s)

/-- Embedding of `_phase2_startup`: apply the plan's profile to the batch
(without restarting), then start the batch with bounded parallelism, a
5-second stagger and a 90-second per-instance timeout. -/
def phase2_startup (env : OrchEnv) (plan : BatchPlan) (s : OrchState) :
    BatchStartResult × OrchState :=
  let ids := plan.emulators.map Emu.index
  let (_, m) := apply_profile_to_batch env.mgr env.profiles ids plan.recommended_profile false s.mgr
  let (r, m) := start_batch env.mgr ids 3 5 90 m
  (r, { s with mgr := m })

/-- Embedding of `_phase3_readiness`. -/
def phase3_readiness (env : OrchEnv) (ids : List Nat) (s : OrchState) :
    BatchReadyResult × OrchState :=
  if ids = [] then
    ({ success := true, total_requested := 0, ready_emulators := 0
       timeout_emulators := 0, failed_emulators := 0, results := [] }, s)
  else
    let (r, m) := wait_batch_ready env.mgr ids 150 5 s.mgr
    (r, { s with mgr := m })

/-- Per-instance record of the processing phase. -/
structure ProcRecord where
  emulator_index : Nat
  success : Bool
  duration : ℚ
deriving DecidableEq, Repr

/-- Aggregate result of `_phase4_processing`. -/
structure ProcessingResult where
  processed_successfully : Nat
  failed : Nat
  results : List ProcRecord
  total_time : Nat
deriving DecidableEq, Repr

/-- Embedding of `_process_single_emulator`: re-probe liveness, then run the
external `bot_worker` job, whose exit status and duration the environment
provides. -/
def process_single_emulator (env : OrchEnv) (emu : Emu) (s : OrchState) :
    ProcRecord × OrchState :=
  let (running, m) := is_running env.mgr emu.index false s.mgr
  let s := { s with mgr := m }
  if running = false then
    ({ emulator_index := emu.index, success := false, duration := 0 }, s)
  else
    ({ emulator_index := emu.index
       success := env.job_ok s.mgr.time emu.index
       duration := env.job_duration s.mgr.time emu.index }, s)

/-- Embedding of `_phase4_processing`, determinized to sequential job
dispatch in submission order. -/
def phase4_processing (env : OrchEnv) (readyEmulators : List Emu) (_plan : BatchPlan)
    (s : OrchState) : ProcessingResult × OrchState :=
  let startTime := s.mgr.time
  let (acc, s) := readyEmulators.foldl
    (fun (p : ProcessingResult × OrchState) emu =>
      let (acc, s) := p
      let (r, s) := process_single_emulator env emu s
      ({ acc with
         results := acc.results ++ [r]
         processed_successfully := acc.processed_successfully + (if r.success then 1 else 0)
         failed := acc.failed + (if r.success then 0 else 1) }, s))
    ({ processed_successfully := 0, failed := 0, results := [], total_time := 0 }, s)
  ({ acc with total_time := s.mgr.time - startTime }, s)

/-- Replace the first stop record with a matching index (the inner loop of
the force-escalation merge in `_phase5_shutdown`). -/
def replace_first_stop_record : List BatchStopRecord → BatchStopRecord →
    List BatchStopRecord × Bool
  | [], _ => ([], false)
  | r :: rest, fr =>
      if r.index = fr.index then (fr :: rest, true)
      else
        let (rest', found) := replace_first_stop_record rest fr
        (r :: rest', found)

/-- The force-escalation merge of `_phase5_shutdown`: every successful
forced-stop record overwrites the corresponding graceful record and moves
one count from failed to stopped. -/
def merge_force_results (base : BatchStopResult) (forceResults : List BatchStopRecord) :
    BatchStopResult :=
  forceResults.foldl
    (fun acc fr =>
      if fr.success then
        let (results', found) := replace_first_stop_record acc.results fr
        if found then
          { acc with
            results := results'
            stopped_successfully := acc.stopped_successfully + 1
            failed := acc.failed - 1 }
        else acc
      else acc)
    base

/-- Embedding of `_phase5_shutdown`: graceful batch stop, then escalation of
the failed subset to a forced stop with result merging. -/
def phase5_shutdown (env : OrchEnv) (ids : List Nat) (s : OrchState) :
    BatchStopResult × OrchState :=
  if ids = [] then
    ({ success := true, total_requested := 0, stopped_successfully := 0
       already_stopped := 0, failed := 0, results := [] }, s)
  else
    let (r, m) := stop_batch env.mgr ids 5 false 30 s.mgr
    let s := { s with mgr := m }
    if 0 < r.failed then
      let failedIndexes := (r.results.filter (fun rcd => rcd.success = false)).map
        BatchStopRecord.index
      if failedIndexes = [] then (r, s)
      else
        let (fr, m) := stop_batch env.mgr failedIndexes 5 true 15 s.mgr
        (merge_force_results r fr.results, { s with mgr := m })
    else (r, s)

/-- Errors accumulated in `BatchResults.errors`. -/
inductive BatchError where
  | planning (w : PlanWarning)
  | noEmulatorStarted
  | adbNotReady
deriving DecidableEq, Repr

/-- Embedding of the dataclass `BatchResults`.  The per-phase result dicts
start out empty (`{}`), modelled as `none`. -/
structure BatchResults where
  plan : Option BatchPlan
  startup_results : Option BatchStartResult
  readiness_results : Option BatchReadyResult
  processing_results : Option ProcessingResult
  shutdown_results : Option BatchStopResult
  total_duration : Nat
  success_rate : ℚ
  emulators_processed : Nat
  errors : List BatchError
deriving DecidableEq, Repr

/-- Embedding of `_log_post_batch_system_state` (plus the monitor calls made
by `log_system_state` and `get_recommendations`); only the monitor cache and
history can change here. -/
def log_post_batch_system_state (env : OrchEnv) (s : OrchState) : OrchState :=
  let (_, s) := orch_get_system_load env s
  let (_, s) := orch_get_system_load env s
  let (_, s) := orch_get_system_load env s
  s

/-- Embedding of `execute_smart_batch`: the five-phase workflow with its
early returns.  The `finally` block (post-batch system-state logging) runs
on every path. -/
def execute_smart_batch (env : OrchEnv) (profileFilter : Option String)
    (maxEmulators : Option ℤ) (s : OrchState) : BatchResults × OrchState :=
  let batchStartTime := s.mgr.time
  let base : BatchResults :=
    { plan := none, startup_results := none, readiness_results := none
      processing_results := none, shutdown_results := none
      total_duration := 0, success_rate := 0, emulators_processed := 0, errors := [] }
  -- phase 1: planning
  let (plan, s) := phase1_planning env profileFilter maxEmulators s
  let base := { base with plan := some plan }
  if plan.can_execute = false then
    ({ base with errors := base.errors ++ plan.warnings.map BatchError.planning },
     log_post_batch_system_state env s)
  else
    -- phase 2: startup
    let (startup, s) := phase2_startup env plan s
    let base := { base with startup_results := some startup }
    if startup.started_successfully = 0 then
      ({ base with errors := base.errors ++ [BatchError.noEmulatorStarted] },
       log_post_batch_system_state env s)
    else
      -- phase 3: readiness (only over the freshly started instances)
      let startedIndexes :=
        ((startup.results.filter (fun p => p.2.success ∧ p.2.already_running = false)).map
          Prod.fst)
      let (readiness, s) := phase3_readiness env startedIndexes s
      let base := { base with readiness_results := some readiness }
      if readiness.ready_emulators = 0 then
        let (_, s) := phase5_shutdown env (plan.emulators.map Emu.index) s
        ({ base with errors := base.errors ++ [BatchError.adbNotReady] },
         log_post_batch_system_state env s)
      else
        -- phase 4: processing over the ready instances
        let readyEmulatorData := readiness.results.foldl
          (fun acc r =>
            if r.ready then
              match plan.emulators.find? (fun e => e.index = r.index) with
              | some e => acc ++ [{ e with adb_port := r.adb_port }]
              | none => acc
            else acc)
          ([] : List Emu)
        let (processing, s) := phase4_processing env readyEmulatorData plan s
        let base := { base with processing_results := some processing }
        -- phase 5: shutdown over every planned instance
        let (shutdown, s) := phase5_shutdown env (plan.emulators.map Emu.index) s
        let base := { base with shutdown_results := some shutdown }
        let totalAttempted := plan.emulators.length
        ({ base with
           total_duration := s.mgr.time - batchStartTime
           emulators_processed := processing.processed_successfully
           success_rate :=
             if 0 < totalAttempted then
               (processing.processed_successfully : ℚ) / (totalAttempted : ℚ) * 100
             else 0 },
         log_post_batch_system_state env s)

/-! ## Concrete environments used by counterexamples and witnesses -/

/-- A host under critical load (cpu 92%), with ample memory. -/
def monEnvCritical : MonEnv :=
  { metrics := fun _ => some
      { cpu_percent := 92, memory_percent := 30, memory_available_gb := 64
        disk_percent := 10, disk_free_gb := 100, ldplayer_processes := 0
        ldplayer_memory_mb := 0, active_emulators := 0 } }

/-- A host under low load, with ample memory. -/
def monEnvLow : MonEnv :=
  { metrics := fun _ => some
      { cpu_percent := 20, memory_percent := 30, memory_available_gb := 64
        disk_percent := 10, disk_free_gb := 100, ldplayer_processes := 0
        ldplayer_memory_mb := 0, active_emulators := 0 } }

/-- A host whose metric collection always fails. -/
def monEnvFailing : MonEnv := { metrics := fun _ => none }

/-- A fresh monitor state. -/
def monState0 : MonState := { cache := none, history := [] }

/-! ## General lemmas about the monitor -/

/-- Every profile's instance ceiling is at least 2 (the smallest entry is
'emergency'). -/
theorem two_le_max_emulators (p : String) : 2 ≤ max_emulators_by_profile p := by
  unfold max_emulators_by_profile
  split_ifs <;> norm_num

/-- Every profile other than 'emergency' has an instance ceiling of at
least 4. -/
theorem four_le_max_emulators (p : String) (h : p ≠ "emergency") :
    4 ≤ max_emulators_by_profile p := by
  unfold max_emulators_by_profile
  split_ifs <;> simp_all

/-- Every profile's per-instance memory requirement is positive. -/
theorem memory_requirement_pos (p : String) : 0 < memory_requirement_by_profile p := by
  unfold memory_requirement_by_profile
  split_ifs <;> norm_num

/-- `get_optimal_batch_size` is floored at 1. -/
theorem one_le_get_optimal (env : MonEnv) (th : Thresholds) (p : String) (t : Nat)
    (s : MonState) : 1 ≤ (get_optimal_batch_size env th p t s).1 := by
  unfold get_optimal_batch_size
  rcases hg : get_system_load env th true t s with ⟨sl, s1⟩
  simp [hg]

/-- `get_optimal_batch_size` never exceeds the profile's instance ceiling,
because the active-instance clamp `max 0 (ceiling - active)` is itself below
the ceiling and every ceiling is at least 2. -/
theorem get_optimal_le_max_emulators (env : MonEnv) (th : Thresholds) (p : String)
    (t : Nat) (s : MonState) :
    (get_optimal_batch_size env th p t s).1 ≤ max_emulators_by_profile p := by
  unfold get_optimal_batch_size
  rcases hg : get_system_load env th true t s with ⟨sl, s1⟩
  simp only [hg]
  have h2 := two_le_max_emulators p
  have ha : (0 : ℤ) ≤ (sl.active_emulators : ℤ) := Int.ofNat_nonneg _
  omega

/-- The optimal-batch-size field of an admission recommendation is the value
of `get_optimal_batch_size` on the post-snapshot monitor state. -/
theorem is_safe_optimal_eq (env : MonEnv) (th : Thresholds) (b : ℤ) (p : String)
    (t : Nat) (s : MonState) :
    (is_safe_to_start_batch env th b p t s).1.optimal_batch_size
      = (get_optimal_batch_size env th p t ((get_system_load env th true t s).2)).1 := by
  unfold is_safe_to_start_batch
  split_ifs <;> rfl

/-- The max-batch-size field of an admission recommendation is
`max_safe_batch_size` of the snapshot's load level. -/
theorem is_safe_max_eq (env : MonEnv) (th : Thresholds) (b : ℤ) (p : String)
    (t : Nat) (s : MonState) :
    (is_safe_to_start_batch env th b p t s).1.max_batch_size
      = max_safe_batch_size (get_system_load env th true t s).1.load_level p := by
  unfold is_safe_to_start_batch
  split_ifs <;> rfl

/-! ## Claim C2: 0 ≤ optimal_batch_size ≤ max_batch_size -/

/-- Claim C2, counterexample: under a critical-load snapshot (cpu 92%),
`is_safe_to_start_batch(1, "farming")` returns `optimal_batch_size = 1` and
`max_batch_size = 0`, violating `optimal_batch_size ≤ max_batch_size` — the
optimal size is floored at 1 while critical load forces the maximum to 0. -/
theorem c2_counterexample :
    (is_safe_to_start_batch monEnvCritical defaultThresholds 1 "farming" 0
      monState0).1.optimal_batch_size = 1 ∧
    (is_safe_to_start_batch monEnvCritical defaultThresholds 1 "farming" 0
      monState0).1.max_batch_size = 0 := by
  constructor <;> decide

/-- Claim C2, amended: every admission recommendation satisfies
`0 ≤ optimal_batch_size` (indeed `1 ≤`), and `optimal_batch_size ≤
max_batch_size` holds when the snapshot's load level is low (or the unknown
fallback), but not at medium, high or critical load, where
`max_safe_batch_size` can drop below the 1-floored optimal size — in
particular at critical load, where `max_batch_size = 0 < optimal_batch_size`. -/
theorem c2_amended (env : MonEnv) (th : Thresholds) (b : ℤ) (p : String) (t : Nat)
    (s : MonState) :
    0 ≤ (is_safe_to_start_batch env th b p t s).1.optimal_batch_size ∧
    (((get_system_load env th true t s).1.load_level = LoadLevel.low ∨
      (get_system_load env th true t s).1.load_level = LoadLevel.unknown) →
      (is_safe_to_start_batch env th b p t s).1.optimal_batch_size ≤
        (is_safe_to_start_batch env th b p t s).1.max_batch_size) := by
  rw [is_safe_optimal_eq, is_safe_max_eq]
  constructor
  · exact le_trans zero_le_one (one_le_get_optimal env th p t _)
  · intro h
    have hle := get_optimal_le_max_emulators env th p t
      ((get_system_load env th true t s).2)
    rcases h with h | h <;> rw [h] <;> simpa [max_safe_batch_size] using hle

/-- Claim C2, witness: the amended theorem applied under a concrete low-load
snapshot. -/
theorem c2_witness :
    ((get_system_load monEnvLow defaultThresholds true 0 monState0).1.load_level =
        LoadLevel.low ∨
      (get_system_load monEnvLow defaultThresholds true 0 monState0).1.load_level =
        LoadLevel.unknown) ∧
    (is_safe_to_start_batch monEnvLow defaultThresholds 2 "farming" 0
        monState0).1.optimal_batch_size ≤
      (is_safe_to_start_batch monEnvLow defaultThresholds 2 "farming" 0
        monState0).1.max_batch_size :=
  ⟨Or.inl (by decide),
   (c2_amended monEnvLow defaultThresholds 2 "farming" 0 monState0).2 (Or.inl (by decide))⟩

/-! ## Claim C3: monotonicity of max_safe_batch_size in the load level -/

/-- Severity rank of a load level: low < medium < high < critical. -/
def LoadLevel.severity : LoadLevel → Nat
  | LoadLevel.low => 0
  | LoadLevel.medium => 1
  | LoadLevel.high => 2
  | LoadLevel.critical => 3
  | LoadLevel.unknown => 4

/-- Claim C3, counterexample: for the 'emergency' profile, medium load is
worse than low load yet `max_safe_batch_size(medium) = 3 > 2 =
max_safe_batch_size(low)` — the claimed monotonicity (and strict decrease)
fails because 'emergency' has an instance ceiling of 2. -/
theorem c3_counterexample :
    LoadLevel.severity LoadLevel.medium > LoadLevel.severity LoadLevel.low ∧
    ¬ (max_safe_batch_size LoadLevel.medium "emergency" ≤
       max_safe_batch_size LoadLevel.low "emergency") := by
  decide

/-- Claim C3, amended: for every profile except 'emergency',
`max_safe_batch_size` is monotone in the load level (worse load gives a
smaller-or-equal limit), strictly decreasing along low > medium > high >
critical, with critical load yielding 0.  For 'emergency' the low-load
ceiling (2) falls below the medium-load limit (3). -/
theorem c3_amended (p : String) (hp : p ≠ "emergency") :
    (∀ l1 l2 : LoadLevel, l1 ≠ LoadLevel.unknown → l2 ≠ LoadLevel.unknown →
      LoadLevel.severity l2 ≤ LoadLevel.severity l1 →
      max_safe_batch_size l1 p ≤ max_safe_batch_size l2 p) ∧
    max_safe_batch_size LoadLevel.critical p < max_safe_batch_size LoadLevel.high p ∧
    max_safe_batch_size LoadLevel.high p < max_safe_batch_size LoadLevel.medium p ∧
    max_safe_batch_size LoadLevel.medium p < max_safe_batch_size LoadLevel.low p ∧
    max_safe_batch_size LoadLevel.critical p = 0 := by
  have h4 := four_le_max_emulators p hp
  refine ⟨?_, ?_, ?_, ?_, ?_⟩
  · intro l1 l2 h1 h2 hsev
    cases l1 <;> cases l2 <;> simp_all [max_safe_batch_size, LoadLevel.severity] <;> omega
  · simp [max_safe_batch_size]
  · simp [max_safe_batch_size]
  · simp [max_safe_batch_size]; omega
  · rfl

/-- Claim C3, witness: the amended theorem applied to the 'farming'
profile at critical vs low load. -/
theorem c3_witness :
    ("farming" ≠ "emergency") ∧
    (max_safe_batch_size LoadLevel.critical "farming" ≤
       max_safe_batch_size LoadLevel.low "farming") ∧
    max_safe_batch_size LoadLevel.critical "farming" = 0 :=
  ⟨by decide,
   (c3_amended "farming" (by decide)).1 LoadLevel.critical LoadLevel.low
     (by decide) (by decide) (by decide),
   (c3_amended "farming" (by decide)).2.2.2.2⟩

/-! ## Claim C5: the load classifier -/

/-- Claim C5, counterexample: at cpu = 85 (exactly the critical threshold),
mem = disk = 0, the classifier returns 'critical' although no value strictly
exceeds its critical threshold — the source compares with `>=`, not the
claimed strict "exceeds". -/
theorem c5_counterexample :
    determine_load_level defaultThresholds 85 0 0 = LoadLevel.critical ∧
    ¬ ((85 : ℚ) > 85 ∨ (0 : ℚ) > 90 ∨ (0 : ℚ) > 95) := by
  constructor
  · rfl
  · push_neg
    norm_num

/-- Claim C5, amended: with the default thresholds, the classifier returns
'critical' exactly when some value is at least (≥) its critical threshold
(cpu 85, mem 90, disk 95); otherwise 'high' exactly when some value is at
least its warning threshold (cpu 70, mem 75, disk 85); otherwise 'medium'
exactly when the unweighted average strictly exceeds 50; otherwise 'low'. -/
theorem c5_amended (cpu mem disk : ℚ)
    (hc : 0 ≤ cpu) (hm : 0 ≤ mem) (hd : 0 ≤ disk) :
    (determine_load_level defaultThresholds cpu mem disk = LoadLevel.critical ↔
      (cpu ≥ 85 ∨ mem ≥ 90 ∨ disk ≥ 95)) ∧
    (determine_load_level defaultThresholds cpu mem disk = LoadLevel.high ↔
      (¬(cpu ≥ 85 ∨ mem ≥ 90 ∨ disk ≥ 95) ∧ (cpu ≥ 70 ∨ mem ≥ 75 ∨ disk ≥ 85))) ∧
    (determine_load_level defaultThresholds cpu mem disk = LoadLevel.medium ↔
      (¬(cpu ≥ 85 ∨ mem ≥ 90 ∨ disk ≥ 95) ∧ ¬(cpu ≥ 70 ∨ mem ≥ 75 ∨ disk ≥ 85) ∧
        (cpu + mem + disk) / 3 > 50)) ∧
    (determine_load_level defaultThresholds cpu mem disk = LoadLevel.low ↔
      (¬(cpu ≥ 85 ∨ mem ≥ 90 ∨ disk ≥ 95) ∧ ¬(cpu ≥ 70 ∨ mem ≥ 75 ∨ disk ≥ 85) ∧
        ¬((cpu + mem + disk) / 3 > 50))) := by
  unfold determine_load_level defaultThresholds
  split_ifs with h1 h2 h3 <;> simp_all

/-- Claim C5, witness: the amended classification applied at the concrete
point (92, 30, 10). -/
theorem c5_witness :
    ((0 : ℚ) ≤ 92 ∧ (0 : ℚ) ≤ 30 ∧ (0 : ℚ) ≤ 10) ∧
    (determine_load_level defaultThresholds 92 30 10 = LoadLevel.critical ↔
      ((92 : ℚ) ≥ 85 ∨ (30 : ℚ) ≥ 90 ∨ (10 : ℚ) ≥ 95)) :=
  ⟨⟨by norm_num, by norm_num, by norm_num⟩,
   (c5_amended 92 30 10 (by norm_num) (by norm_num) (by norm_num)).1⟩

/-! ## Claim C4: failure semantics of metric collection -/

/-- With an empty snapshot cache, a metric-collection failure makes
`get_system_load` return the conservative 'unknown' snapshot and leave the
state unchanged. -/
theorem get_system_load_fail (env : MonEnv) (th : Thresholds) (t : Nat) (s : MonState)
    (hc : s.cache = none) (hm : env.metrics t = none) :
    get_system_load env th true t s = (unknownLoad t, s) := by
  unfold get_system_load sampleSystemLoad
  rw [hc, hm]

/-- Claim C4, counterexample: on an 'unknown' (failed-collection) snapshot,
admission is not treated like 'critical': `max_batch_size` is the profile
ceiling (10 for 'farming'), not 0, because 'unknown' falls into the
`else` (low) branch of `_get_max_safe_batch_size`; and a requested size of 0
is even approved (`safe_to_start = true`). -/
theorem c4_counterexample :
    (get_system_load monEnvFailing defaultThresholds true 0 monState0).1.load_level
      = LoadLevel.unknown ∧
    (is_safe_to_start_batch monEnvFailing defaultThresholds 0 "farming" 0
      monState0).1.safe_to_start = true ∧
    (is_safe_to_start_batch monEnvFailing defaultThresholds 1 "farming" 0
      monState0).1.max_batch_size = 10 := by
  refine ⟨by decide, by decide, by decide⟩

/-- Claim C4, amended: metric-collection failure yields the maximally
conservative snapshot (load_level 'unknown', all numeric fields zero)
instead of an exception; on such a snapshot any positive requested batch
size is rejected (`safe_to_start = false`) — via the memory check, since
available memory is reported as zero — but `max_batch_size` equals the
profile's instance ceiling, not 0, because 'unknown' falls into the low
branch of `_get_max_safe_batch_size`. -/
theorem c4_amended (env : MonEnv) (th : Thresholds) (b : ℤ) (p : String) (t : Nat)
    (s : MonState) (hc : s.cache = none) (hm : env.metrics t = none) (hb : 1 ≤ b) :
    (get_system_load env th true t s).1 = unknownLoad t ∧
    (is_safe_to_start_batch env th b p t s).1.safe_to_start = false ∧
    (is_safe_to_start_batch env th b p t s).1.max_batch_size
      = max_emulators_by_profile p := by
  have hload := get_system_load_fail env th t s hc hm
  have hmem : (0 : ℚ) * 1024 < memory_requirement_by_profile p * (b : ℚ) := by
    have h1 : (0 : ℚ) < memory_requirement_by_profile p := memory_requirement_pos p
    have h2 : (1 : ℚ) ≤ (b : ℚ) := by exact_mod_cast hb
    have h3 : (0 : ℚ) < memory_requirement_by_profile p * (b : ℚ) :=
      mul_pos h1 (lt_of_lt_of_le one_pos h2)
    simpa using h3
  refine ⟨by rw [hload], ?_, ?_⟩
  · unfold is_safe_to_start_batch
    rw [hload]
    simp [unknownLoad, hmem]
    intro hcon
    exfalso
    have h0 : (0 : ℚ) < memory_requirement_by_profile p * (b : ℚ) := by simpa using hmem
    exact absurd hcon (not_le.mpr h0)
  · rw [is_safe_max_eq, hload]
    rfl

/-- Claim C4, witness: the amended behavior at a concrete failing
environment with requested size 1. -/
theorem c4_witness :
    (monState0.cache = none ∧ monEnvFailing.metrics 0 = none ∧ (1 : ℤ) ≤ 1) ∧
    ((get_system_load monEnvFailing defaultThresholds true 0 monState0).1 = unknownLoad 0 ∧
     (is_safe_to_start_batch monEnvFailing defaultThresholds 1 "farming" 0
        monState0).1.safe_to_start = false ∧
     (is_safe_to_start_batch monEnvFailing defaultThresholds 1 "farming" 0
        monState0).1.max_batch_size = max_emulators_by_profile "farming") :=
  ⟨⟨rfl, rfl, le_refl 1⟩,
   c4_amended monEnvFailing defaultThresholds 1 "farming" 0 monState0 rfl rfl (le_refl 1)⟩

/-! ## Claim C6: rejection under critical load -/

/-- Claim C6: whenever the current snapshot's load level is 'critical',
`is_safe_to_start_batch` returns `safe_to_start = false` for every requested
size and profile, and its warnings contain the critical-load warning
(carrying the snapshot's cpu and memory percentages). -/
theorem c6_safe_false_and_warn (env : MonEnv) (th : Thresholds) (b : ℤ) (p : String)
    (t : Nat) (s : MonState)
    (h : (get_system_load env th true t s).1.load_level = LoadLevel.critical) :
    (is_safe_to_start_batch env th b p t s).1.safe_to_start = false ∧
    MonWarning.criticalLoad (get_system_load env th true t s).1.cpu_percent
        (get_system_load env th true t s).1.memory_percent
      ∈ (is_safe_to_start_batch env th b p t s).1.warnings := by
  unfold is_safe_to_start_batch
  rcases hg : get_system_load env th true t s with ⟨sl, s1⟩
  rw [hg] at h
  simp only at h
  simp [h]

/-- Claim C6, witness: rejection at a concrete critical-load snapshot
(cpu 92%) with requested size 5. -/
theorem c6_witness :
    ((get_system_load monEnvCritical defaultThresholds true 0 monState0).1.load_level
       = LoadLevel.critical) ∧
    ((is_safe_to_start_batch monEnvCritical defaultThresholds 5 "farming" 0
        monState0).1.safe_to_start = false ∧
     MonWarning.criticalLoad
        (get_system_load monEnvCritical defaultThresholds true 0 monState0).1.cpu_percent
        (get_system_load monEnvCritical defaultThresholds true 0 monState0).1.memory_percent
       ∈ (is_safe_to_start_batch monEnvCritical defaultThresholds 5 "farming" 0
           monState0).1.warnings) :=
  ⟨by decide,
   c6_safe_false_and_warn monEnvCritical defaultThresholds 5 "farming" 0 monState0
     (by decide)⟩


/-! ## Claim C10: is_running under a failed live-list query -/

/-- Claim C10: when the live-list query issued by `is_running` fails, the
function returns `false` without touching the cached entry (or the clock);
and a successful query listing the instance as stopped (or omitting it)
also returns `false` — at the `is_running` interface the two cases are
indistinguishable. -/
theorem c10_is_running_query_failure (env : MgrEnv) (idx : Nat) (fc : Bool) (s : MgrState)
    (hq : fc = true ∨ ∀ e, s.cache idx = some e → ¬(s.time - e.last_check < 60))
    (hfail : (env.exec s.time LCmd.list2).success = false)
    (env2 : MgrEnv) (idx2 : Nat) (s2 : MgrState)
    (h2ok : (env2.exec s2.time LCmd.list2).success = true)
    (h2row : ∀ row ∈ (env2.exec s2.time LCmd.list2).rows.find? (fun r => r.1 = idx2),
      row.2 = false) :
    (is_running env idx fc s).1 = false ∧
    (is_running env idx fc s).2.cache idx = s.cache idx ∧
    (is_running env idx fc s).2.time = s.time ∧
    (is_running env2 idx2 true s2).1 = false := by
  refine ⟨?_, ?_, ?_, ?_⟩ <;>
    [skip; skip; skip;
     (unfold is_running run_ldconsole_command
      simp only [if_pos rfl]
      cases hfind : (env2.exec s2.time LCmd.list2).rows.find? (fun r => r.1 = idx2) with
      | none => simp [h2ok, hfind]
      | some row =>
          have hr2 := h2row row (by rw [hfind]; rfl)
          simp [h2ok, hfind, hr2])] <;>
  · unfold is_running run_ldconsole_command
    rcases hq with hq | hq
    · subst hq
      simp [hfail]
    · cases fc with
      | true => simp [hfail]
      | false =>
          cases hc : s.cache idx with
          | none => simp [hc, hfail]
          | some e => simp [hc, hfail, hq e hc]


/-! Concrete manager environments -/

/-- Control surface where every command fails. -/
def mgrEnvAllFail : MgrEnv :=
  { exec := fun _ _ => { success := false, rows := [], execTime := 1 }
    adbTest := fun _ _ => false
    adbDevices := fun _ => none }

/-- Control surface where every command succeeds and instance 0 is listed as
stopped. -/
def mgrEnvStopped : MgrEnv :=
  { exec := fun _ c =>
      match c with
      | LCmd.list2 => { success := true, rows := [(0, false)], execTime := 1 }
      | _ => { success := true, rows := [], execTime := 1 }
    adbTest := fun _ _ => false
    adbDevices := fun _ => none }

/-- A fresh manager state. -/
def mgrState0 : MgrState := { cache := fun _ => none, time := 0, trace := [] }

/-- Manager state with a fresh cached 'running' entry for instance 0. -/
def mgrStateRunning0 : MgrState :=
  { cache := fun j => if j = 0 then
      some { status := EmuStatus.running, last_check := 0, adb_port := none }
    else none
    time := 0, trace := [] }

theorem c10_witness :
    ((true = true ∨ ∀ e, mgrState0.cache 0 = some e →
        ¬(mgrState0.time - e.last_check < 60)) ∧
     (mgrEnvAllFail.exec mgrState0.time LCmd.list2).success = false ∧
     (mgrEnvStopped.exec mgrState0.time LCmd.list2).success = true ∧
     (∀ row ∈ (mgrEnvStopped.exec mgrState0.time LCmd.list2).rows.find?
        (fun r => r.1 = 0), row.2 = false)) ∧
    ((is_running mgrEnvAllFail 0 true mgrState0).1 = false ∧
     (is_running mgrEnvAllFail 0 true mgrState0).2.cache 0 = mgrState0.cache 0 ∧
     (is_running mgrEnvAllFail 0 true mgrState0).2.time = mgrState0.time ∧
     (is_running mgrEnvStopped 0 true mgrState0).1 = false) :=
  ⟨⟨Or.inl rfl, rfl, rfl, by decide⟩,
   c10_is_running_query_failure mgrEnvAllFail 0 true mgrState0 (Or.inl rfl) rfl
     mgrEnvStopped 0 mgrState0 rfl (by decide)⟩

/-! ## Claim C9: stop trusts the post-condition probe -/

/-- Claim C9: for a `stop` of a running instance (graceful path) whose quit
command reports success, the result is successful exactly when the liveness
re-probe after the 2-second settle delay reports the instance as no longer
running; in particular a probe still reporting the instance live forces
`success = false` despite the command's success. -/
theorem c9_stop_trusts_postprobe (env : MgrEnv) (idx : Nat) (timeout : ℤ) (s : MgrState)
    (h1 : (is_running env idx false s).1 = true)
    (h2 : (env.exec (is_running env idx false s).2.time (LCmd.quit idx)).success = true) :
    ((stop_emulator env idx false timeout s).1.success = true ↔
      (is_running env idx false
        (msleep 2 { (is_running env idx false s).2 with
          trace := TraceEv.cmd (LCmd.quit idx) :: (is_running env idx false s).2.trace })).1
        = false) := by
  unfold stop_emulator run_ldconsole_command
  rcases hr : is_running env idx false s with ⟨running, s1⟩
  rw [hr] at h1 h2
  simp only at h1 h2
  subst h1
  simp only [h2]
  rcases hp : is_running env idx false
      (msleep 2 { s1 with trace := TraceEv.cmd (LCmd.quit idx) :: s1.trace }) with ⟨still, s2⟩
  cases still <;> simp [hp, h2]


/-- Control surface where instance 0 is listed as running and every command
succeeds. -/
def mgrEnvRunningLive : MgrEnv :=
  { exec := fun _ c =>
      match c with
      | LCmd.list2 => { success := true, rows := [(0, true)], execTime := 1 }
      | _ => { success := true, rows := [], execTime := 1 }
    adbTest := fun _ _ => false
    adbDevices := fun _ => none }

theorem c9_witness :
    ((is_running mgrEnvRunningLive 0 false mgrStateRunning0).1 = true ∧
     (mgrEnvRunningLive.exec (is_running mgrEnvRunningLive 0 false mgrStateRunning0).2.time
        (LCmd.quit 0)).success = true) ∧
    ((stop_emulator mgrEnvRunningLive 0 false 30 mgrStateRunning0).1.success = true ↔
      (is_running mgrEnvRunningLive 0 false
        (msleep 2 { (is_running mgrEnvRunningLive 0 false mgrStateRunning0).2 with
          trace := TraceEv.cmd (LCmd.quit 0) ::
            (is_running mgrEnvRunningLive 0 false mgrStateRunning0).2.trace })).1 = false) :=
  ⟨⟨by decide, by decide⟩,
   c9_stop_trusts_postprobe mgrEnvRunningLive 0 30 mgrStateRunning0 (by decide) (by decide)⟩

/-! ## Claim C7: idempotence of start on a running instance -/

/-- A fresh cached 'running' entry makes `is_running` answer from the cache
without issuing any command or changing state. -/
theorem is_running_cache_hit (env : MgrEnv) (idx : Nat) (s : MgrState) (e : CacheEntry)
    (he : s.cache idx = some e) (hfr : s.time - e.last_check < 60)
    (hst : e.status = EmuStatus.running) :
    is_running env idx false s = (true, s) := by
  unfold is_running
  simp [he, hfr, hst]

/-- When `is_running` answers `true`, the post-state holds a fresh cached
'running' entry for the instance, and the clock is unchanged. -/
theorem is_running_true_fresh (env : MgrEnv) (idx : Nat) (fc : Bool) (s : MgrState)
    (h : (is_running env idx fc s).1 = true) :
    ∃ e, (is_running env idx fc s).2.cache idx = some e ∧
      e.status = EmuStatus.running ∧
      (is_running env idx fc s).2.time - e.last_check < 60 ∧
      (is_running env idx fc s).2.time = s.time := by
  unfold is_running run_ldconsole_command at h ⊢
  cases fc with
  | false =>
      cases hc : s.cache idx with
      | some e =>
          by_cases hfr : s.time - e.last_check < 60
          · simp only [hc, hfr] at h ⊢
            simp at h ⊢
            exact ⟨e, hc, h, hfr⟩
          · simp only [hc, hfr] at h ⊢
            cases hok : (env.exec s.time LCmd.list2).success with
            | false => simp [hok] at h
            | true =>
                cases hfind : (env.exec s.time LCmd.list2).rows.find?
                    (fun row => row.1 = idx) with
                | none => simp [hok, hfind] at h
                | some row =>
                    simp only [hok, hfind] at h ⊢
                    simp at h ⊢
                    exact h
      | none =>
          simp only [hc] at h ⊢
          cases hok : (env.exec s.time LCmd.list2).success with
          | false => simp [hok] at h
          | true =>
              cases hfind : (env.exec s.time LCmd.list2).rows.find?
                  (fun row => row.1 = idx) with
              | none => simp [hok, hfind] at h
              | some row =>
                  simp only [hok, hfind] at h ⊢
                  simp at h ⊢
                  exact h
  | true =>
      simp only [] at h ⊢
      cases hok : (env.exec s.time LCmd.list2).success with
      | false => simp [hok] at h
      | true =>
          cases hfind : (env.exec s.time LCmd.list2).rows.find?
              (fun row => row.1 = idx) with
          | none => simp [hok, hfind] at h
          | some row =>
              simp only [hok, hfind] at h ⊢
              simp at h ⊢
              exact h

/-- The portion of `start_emulator` past the early return: every successful
run writes a fresh 'running' cache entry for the instance. -/
theorem start_emulator_launch_success_cache (env : MgrEnv) (idx : Nat) (w : Bool)
    (timeout : ℤ) (s : MgrState)
    (h : (start_emulator_launch env idx w timeout s).1.success = true) :
    ∃ e, (start_emulator_launch env idx w timeout s).2.cache idx = some e ∧
      e.status = EmuStatus.running ∧
      (start_emulator_launch env idx w timeout s).2.time - e.last_check < 60 := by
  unfold start_emulator_launch at h ⊢
  repeat' split at h
  all_goals simp_all [Function.update]
  all_goals split_ifs at h ⊢ <;> simp_all [Function.update]


/-- A successful `start_emulator` call leaves a fresh cached 'running'
entry for the instance (both on the fresh-launch path, which writes it, and
on the already-running path, where `is_running` ensures it). -/
theorem start_emulator_success_cache (env : MgrEnv) (idx : Nat) (w : Bool)
    (timeout : ℤ) (s : MgrState)
    (h : (start_emulator env idx w timeout s).1.success = true) :
    ∃ e, (start_emulator env idx w timeout s).2.cache idx = some e ∧
      e.status = EmuStatus.running ∧
      (start_emulator env idx w timeout s).2.time - e.last_check < 60 := by
  unfold start_emulator at h ⊢
  cases hr : (is_running env idx false s).1 with
  | true =>
      simp only [hr, if_pos rfl] at h ⊢
      obtain ⟨e, he, hst, hfr, _⟩ := is_running_true_fresh env idx false s hr
      exact ⟨e, he, hst, hfr⟩
  | false =>
      simp only [hr] at h ⊢
      simp only [Bool.false_eq_true, if_false] at h ⊢
      exact start_emulator_launch_success_cache env idx w timeout
        (is_running env idx false s).2 h

/-- On a state whose cache holds a fresh 'running' entry for the instance,
`start_emulator` takes the already-running early return and leaves the state
unchanged. -/
theorem start_emulator_cache_hit (env : MgrEnv) (idx : Nat) (w : Bool) (timeout : ℤ)
    (s : MgrState) (e : CacheEntry) (he : s.cache idx = some e)
    (hfr : s.time - e.last_check < 60) (hst : e.status = EmuStatus.running) :
    start_emulator env idx w timeout s =
      ({ success := true, already_running := true, start_time := 0, adb_ready_time := 0
         adb_port := get_adb_port_by_index env s.time idx }, s) := by
  unfold start_emulator
  rw [is_running_cache_hit env idx s e he hfr hst]
  rfl

/-- Claim C7: an immediately repeated `start` of a successfully started
instance reports success with `already_running = true` and leaves the
command trace untouched — in particular it issues no additional launch
command to the control surface. -/
theorem c7_start_idempotent (env : MgrEnv) (idx : Nat) (w1 w2 : Bool)
    (to1 to2 : ℤ) (s : MgrState)
    (h : (start_emulator env idx w1 to1 s).1.success = true) :
    (start_emulator env idx w2 to2 (start_emulator env idx w1 to1 s).2).1.success = true ∧
    (start_emulator env idx w2 to2
        (start_emulator env idx w1 to1 s).2).1.already_running = true ∧
    (start_emulator env idx w2 to2 (start_emulator env idx w1 to1 s).2).2.trace
      = (start_emulator env idx w1 to1 s).2.trace := by
  obtain ⟨e, he, hst, hfr⟩ := start_emulator_success_cache env idx w1 to1 s h
  rw [start_emulator_cache_hit env idx w2 to2 _ e he hfr hst]
  exact ⟨rfl, rfl, rfl⟩


theorem c7_witness :
    ((start_emulator mgrEnvRunningLive 0 false 60 mgrState0).1.success = true) ∧
    ((start_emulator mgrEnvRunningLive 0 false 60
        (start_emulator mgrEnvRunningLive 0 false 60 mgrState0).2).1.success = true ∧
     (start_emulator mgrEnvRunningLive 0 false 60
        (start_emulator mgrEnvRunningLive 0 false 60 mgrState0).2).1.already_running = true ∧
     (start_emulator mgrEnvRunningLive 0 false 60
        (start_emulator mgrEnvRunningLive 0 false 60 mgrState0).2).2.trace
       = (start_emulator mgrEnvRunningLive 0 false 60 mgrState0).2.trace) :=
  ⟨by decide,
   c7_start_idempotent mgrEnvRunningLive 0 false false 60 60 mgrState0 (by decide)⟩


/-! ## Claim C8: wait_batch_ready partitions its input -/

/-- Count of records carrying a given message. -/
def countMsg (m : ReadyMsg) (l : List ReadyRecord) : Nat :=
  (l.filter (fun r => r.msg = m)).length

theorem countMsg_append (m : ReadyMsg) (l1 l2 : List ReadyRecord) :
    countMsg m (l1 ++ l2) = countMsg m l1 + countMsg m l2 := by
  simp [countMsg, List.filter_append]

/-- Each record carries exactly one of the three messages, so the three
counts partition the record list. -/
theorem countMsg_partition (l : List ReadyRecord) :
    countMsg ReadyMsg.isReady l + countMsg ReadyMsg.stoppedDuringWait l +
      countMsg ReadyMsg.timedOut l = l.length := by
  induction l with
  | nil => rfl
  | cons r t ih =>
      cases hr : r.msg <;> simp [countMsg, hr] at ih ⊢ <;> omega

/-- Erasing each element of `nr` in turn from a duplicate-free list equals
filtering out the members of `nr`. -/
theorem foldl_erase_eq_filter (nr : List Nat) :
    ∀ (pending : List Nat), pending.Nodup →
      nr.foldl (fun p i => p.erase i) pending = pending.filter (fun x => !(nr.contains x)) := by
  induction nr with
  | nil => intro pending _; simp
  | cons i nr ih =>
      intro pending hnd
      have he : pending.erase i = pending.filter (· != i) :=
        List.Nodup.erase_eq_filter hnd i
      simp only [List.foldl_cons]
      rw [he, ih _ (hnd.filter _)]
      rw [List.filter_filter]
      apply List.filter_congr
      intro x _
      by_cases hxi : x = i <;> by_cases hxn : x ∈ nr <;>
        simp [List.contains_cons, hxi, hxn, bne]

/-- The removal list of one poll cycle, appended to what remains after the
erase fold, is a permutation of the pending list. -/
theorem erase_fold_perm (nr pending : List Nat) (hnd : pending.Nodup)
    (hsub : nr.Sublist pending) :
    (nr ++ nr.foldl (fun p i => p.erase i) pending).Perm pending := by
  rw [foldl_erase_eq_filter nr pending hnd]
  have hperm := List.filter_append_perm (fun x => nr.contains x) pending
  refine List.Perm.trans ?_ hperm
  apply List.Perm.append ?_ (List.Perm.refl _)
  refine (List.perm_ext_iff_of_nodup (hnd.sublist hsub) (hnd.filter _)).mpr ?_
  intro a
  simp only [List.mem_filter, List.elem_eq_mem, decide_eq_true_eq]
  constructor
  · intro ha
    exact ⟨hsub.subset ha, by simpa using ha⟩
  · intro ⟨_, ha⟩
    simpa using ha


/-- Specification of one poll cycle (`ready_pass`): it appends one record
per newly resolved instance, the removal list is exactly the indexes of the
new records (an order-preserving selection from the pending list), the
ready/failed counters advance by the matching record counts, and no
timed-out records are produced. -/
theorem ready_pass_spec (env : MgrEnv) (elapsed : Nat) :
    ∀ (pending : List Nat) (acc : BatchReadyResult) (s : MgrState),
    ∃ newRecs : List ReadyRecord,
      (ready_pass env elapsed pending acc s).1.results = acc.results ++ newRecs ∧
      newRecs.map ReadyRecord.index = (ready_pass env elapsed pending acc s).2.1 ∧
      (ready_pass env elapsed pending acc s).2.1.Sublist pending ∧
      (ready_pass env elapsed pending acc s).1.ready_emulators
        = acc.ready_emulators + countMsg ReadyMsg.isReady newRecs ∧
      (ready_pass env elapsed pending acc s).1.failed_emulators
        = acc.failed_emulators + countMsg ReadyMsg.stoppedDuringWait newRecs ∧
      (ready_pass env elapsed pending acc s).1.timeout_emulators
        = acc.timeout_emulators ∧
      countMsg ReadyMsg.timedOut newRecs = 0 := by
  intro pending
  induction pending with
  | nil =>
      intro acc s
      exact ⟨[], by simp [ready_pass, countMsg]⟩
  | cons idx rest ih =>
      intro acc s
      simp only [ready_pass]
      cases hb : (is_running env idx false s).1 with
      | false =>
          simp only [hb, if_true]
          obtain ⟨newRecs, h1, h2, h3, h4, h5, h6, h7⟩ :=
            ih { acc with
                   failed_emulators := acc.failed_emulators + 1
                   results := acc.results ++
                     [{ index := idx, ready := false, adb_port := none
                        wait_time := elapsed, msg := ReadyMsg.stoppedDuringWait }] }
               (is_running env idx false s).2
          refine ⟨{ index := idx, ready := false, adb_port := none, wait_time := elapsed
                    msg := ReadyMsg.stoppedDuringWait } :: newRecs, ?_, ?_, ?_, ?_, ?_, ?_, ?_⟩
          · rw [h1]; simp
          · simpa using h2
          · exact h3.cons₂ idx
          · simpa [countMsg] using h4
          · simp only [countMsg] at h5 ⊢
            simp at h5 ⊢
            omega
          · exact h6
          · simpa [countMsg] using h7
      | true =>
          simp only [Bool.true_eq_false, if_false]
          cases hp : get_adb_port_by_index env (is_running env idx false s).2.time idx with
          | none =>
              simp only [hp]
              obtain ⟨newRecs, h1, h2, h3, h4, h5, h6, h7⟩ := ih _ _
              exact ⟨newRecs, h1, h2, h3.cons idx, h4, h5, h6, h7⟩
          | some port =>
              simp only [hp]
              cases ht : env.adbTest (is_running env idx false s).2.time port with
              | false =>
                  obtain ⟨newRecs, h1, h2, h3, h4, h5, h6, h7⟩ := ih _ _
                  exact ⟨newRecs, h1, h2, h3.cons idx, h4, h5, h6, h7⟩
              | true =>
                  simp only [ht, if_true]
                  obtain ⟨newRecs, h1, h2, h3, h4, h5, h6, h7⟩ :=
                    ih { acc with
                           ready_emulators := acc.ready_emulators + 1
                           results := acc.results ++
                             [{ index := idx, ready := true, adb_port := some port
                                wait_time := elapsed, msg := ReadyMsg.isReady }] }
                       (is_running env idx false s).2
                  refine ⟨{ index := idx, ready := true, adb_port := some port
                            wait_time := elapsed, msg := ReadyMsg.isReady } :: newRecs,
                    ?_, ?_, ?_, ?_, ?_, ?_, ?_⟩
                  · rw [h1]; simp
                  · simpa using h2
                  · exact h3.cons₂ idx
                  · simp only [countMsg] at h4 ⊢
                    simp at h4 ⊢
                    omega
                  · simpa [countMsg] using h5
                  · exact h6
                  · simpa [countMsg] using h7


/-- Specification of the polling loop of `wait_batch_ready`: over any amount
of fuel, it appends records whose indexes together with the still-pending
remainder are a permutation of the (duplicate-free) pending list; the
ready/failed counters advance by the matching record counts and no timed-out
records are produced. -/
theorem wait_batch_loop_spec (env : MgrEnv) (timeout : ℤ) (interval startTime : Nat) :
    ∀ (fuel : Nat) (pending : List Nat) (acc : BatchReadyResult) (s : MgrState),
      pending.Nodup →
      ∃ newRecs : List ReadyRecord,
        (wait_batch_loop env timeout interval startTime fuel pending acc s).1.results
          = acc.results ++ newRecs ∧
        ((newRecs.map ReadyRecord.index) ++
          (wait_batch_loop env timeout interval startTime fuel pending acc s).2.1).Perm
            pending ∧
        (wait_batch_loop env timeout interval startTime fuel pending acc s).2.1.Nodup ∧
        (wait_batch_loop env timeout interval startTime fuel pending acc s).1.ready_emulators
          = acc.ready_emulators + countMsg ReadyMsg.isReady newRecs ∧
        (wait_batch_loop env timeout interval startTime fuel pending acc s).1.failed_emulators
          = acc.failed_emulators + countMsg ReadyMsg.stoppedDuringWait newRecs ∧
        (wait_batch_loop env timeout interval startTime fuel pending acc s).1.timeout_emulators
          = acc.timeout_emulators ∧
        countMsg ReadyMsg.timedOut newRecs = 0 := by
  intro fuel
  induction fuel with
  | zero =>
      intro pending acc s hnd
      exact ⟨[], by simp [wait_batch_loop, countMsg], by simp [wait_batch_loop],
        by simpa [wait_batch_loop] using hnd, by simp [wait_batch_loop, countMsg],
        by simp [wait_batch_loop, countMsg], by simp [wait_batch_loop],
        by simp [countMsg]⟩
  | succ fuel ih =>
      intro pending acc s hnd
      by_cases hcond : pending ≠ [] ∧ ((s.time : ℤ) - (startTime : ℤ)) < timeout
      · obtain ⟨recs1, hr1, hm1, hs1, hc1, hc2, hc3, hc4⟩ :=
          ready_pass_spec env (s.time - startTime) pending acc s
        have hnr : (ready_pass env (s.time - startTime) pending acc s).2.1.Nodup :=
          hnd.sublist hs1
        have hperm : ((ready_pass env (s.time - startTime) pending acc s).2.1 ++
            ((ready_pass env (s.time - startTime) pending acc s).2.1.foldl
              (fun p i => p.erase i) pending)).Perm pending :=
          erase_fold_perm _ pending hnd hs1
        have hpnd : (((ready_pass env (s.time - startTime) pending acc s).2.1).foldl
            (fun p i => p.erase i) pending).Nodup := by
          rw [foldl_erase_eq_filter _ pending hnd]
          exact hnd.filter _
        simp only [wait_batch_loop, if_pos hcond]
        by_cases hpe : ((ready_pass env (s.time - startTime) pending acc s).2.1.foldl
            (fun p i => p.erase i) pending) ≠ []
        · simp only [if_pos hpe]
          obtain ⟨recs2, g1, g2, g3, g4, g5, g6, g7⟩ := ih _ _
            (msleep interval (ready_pass env (s.time - startTime) pending acc s).2.2) hpnd
          refine ⟨recs1 ++ recs2, ?_, ?_, g3, ?_, ?_, ?_, ?_⟩
          · rw [g1, hr1, List.append_assoc]
          · refine List.Perm.trans ?_ hperm
            rw [List.map_append, hm1, List.append_assoc]
            exact List.Perm.append_left _ g2
          · rw [g4, hc1, countMsg_append]
            omega
          · rw [g5, hc2, countMsg_append]
            omega
          · rw [g6, hc3]
          · rw [countMsg_append, hc4, g7]
        · simp only [if_neg hpe]
          push_neg at hpe
          refine ⟨recs1, hr1, ?_, by simp [hpe], hc1, hc2, hc3, hc4⟩
          rw [hpe] at hperm
          rw [hm1, hpe]
          simpa using hperm
      · simp only [wait_batch_loop, if_neg hcond]
        exact ⟨[], by simp [countMsg], by simp, hnd, by simp [countMsg],
          by simp [countMsg], by simp, by simp [countMsg]⟩


/-- Specification of the final pass of `wait_batch_ready`: every instance
still pending at the deadline receives exactly one timed-out record. -/
theorem timeout_fold_spec (finalElapsed : Nat) :
    ∀ (remaining : List Nat) (acc : BatchReadyResult),
      ((remaining.foldl (fun acc idx =>
        { acc with
          timeout_emulators := acc.timeout_emulators + 1
          results := acc.results ++
            [{ index := idx, ready := false, adb_port := none, wait_time := finalElapsed
               msg := ReadyMsg.timedOut }] }) acc).results
        = acc.results ++ remaining.map (fun idx =>
            { index := idx, ready := false, adb_port := none, wait_time := finalElapsed
              msg := ReadyMsg.timedOut }) ∧
      (remaining.foldl (fun acc idx =>
        { acc with
          timeout_emulators := acc.timeout_emulators + 1
          results := acc.results ++
            [{ index := idx, ready := false, adb_port := none, wait_time := finalElapsed
               msg := ReadyMsg.timedOut }] }) acc).timeout_emulators
        = acc.timeout_emulators + remaining.length ∧
      (remaining.foldl (fun acc idx =>
        { acc with
          timeout_emulators := acc.timeout_emulators + 1
          results := acc.results ++
            [{ index := idx, ready := false, adb_port := none, wait_time := finalElapsed
               msg := ReadyMsg.timedOut }] }) acc).ready_emulators
        = acc.ready_emulators ∧
      (remaining.foldl (fun acc idx =>
        { acc with
          timeout_emulators := acc.timeout_emulators + 1
          results := acc.results ++
            [{ index := idx, ready := false, adb_port := none, wait_time := finalElapsed
               msg := ReadyMsg.timedOut }] }) acc).failed_emulators
        = acc.failed_emulators) := by
  intro remaining
  induction remaining with
  | nil => intro acc; simp
  | cons idx rest ih =>
      intro acc
      obtain ⟨g1, g2, g3, g4⟩ := ih
        { acc with
          timeout_emulators := acc.timeout_emulators + 1
          results := acc.results ++
            [{ index := idx, ready := false, adb_port := none, wait_time := finalElapsed
               msg := ReadyMsg.timedOut }] }
      refine ⟨?_, ?_, ?_, ?_⟩
      · simp only [List.foldl_cons, List.map_cons]
        rw [g1]
        simp
      · simp only [List.foldl_cons, List.length_cons]
        rw [g2]
        simp only []
        omega
      · simp only [List.foldl_cons]
        rw [g3]
      · simp only [List.foldl_cons]
        rw [g4]

theorem countMsg_timeoutRecs (finalElapsed : Nat) (remaining : List Nat) :
    countMsg ReadyMsg.timedOut (remaining.map (fun idx =>
      { index := idx, ready := false, adb_port := none, wait_time := finalElapsed
        msg := ReadyMsg.timedOut })) = remaining.length ∧
    countMsg ReadyMsg.isReady (remaining.map (fun idx =>
      { index := idx, ready := false, adb_port := none, wait_time := finalElapsed
        msg := ReadyMsg.timedOut })) = 0 ∧
    countMsg ReadyMsg.stoppedDuringWait (remaining.map (fun idx =>
      { index := idx, ready := false, adb_port := none, wait_time := finalElapsed
        msg := ReadyMsg.timedOut })) = 0 := by
  induction remaining with
  | nil => simp [countMsg]
  | cons idx rest ih =>
      simp only [List.map_cons, countMsg, List.filter_cons] at ih ⊢
      simp at ih ⊢
      omega


/-- Claim C8, amended: for a duplicate-free input list, `wait_batch_ready`
assigns each requested instance exactly one result record (the record
indexes are a permutation of the input), the three counters equal the
numbers of ready / failed / timed-out records, and their sum is the number
of requested instances — the three outcomes partition the input exactly. -/
theorem c8_partition (env : MgrEnv) (ids : List Nat) (timeout : ℤ) (interval : Nat)
    (s : MgrState) (hnd : ids.Nodup) :
    (((wait_batch_ready env ids timeout interval s).1.results.map
        ReadyRecord.index).Perm ids) ∧
    (wait_batch_ready env ids timeout interval s).1.ready_emulators
      = countMsg ReadyMsg.isReady (wait_batch_ready env ids timeout interval s).1.results ∧
    (wait_batch_ready env ids timeout interval s).1.failed_emulators
      = countMsg ReadyMsg.stoppedDuringWait
          (wait_batch_ready env ids timeout interval s).1.results ∧
    (wait_batch_ready env ids timeout interval s).1.timeout_emulators
      = countMsg ReadyMsg.timedOut (wait_batch_ready env ids timeout interval s).1.results ∧
    (wait_batch_ready env ids timeout interval s).1.ready_emulators +
      (wait_batch_ready env ids timeout interval s).1.failed_emulators +
      (wait_batch_ready env ids timeout interval s).1.timeout_emulators
      = ids.length := by
  unfold wait_batch_ready
  by_cases hids : ids = []
  · simp [hids, countMsg]
  · simp only [if_neg hids]
    obtain ⟨newRecs, h1, h2, h3, h4, h5, h6, h7⟩ :=
      wait_batch_loop_spec env timeout interval s.time (timeout.toNat + 1) ids
        { success := true, total_requested := ids.length, ready_emulators := 0
          timeout_emulators := 0, failed_emulators := 0, results := [] } s hnd
    obtain ⟨g1, g2, g3, g4⟩ := timeout_fold_spec
      ((wait_batch_loop env timeout interval s.time (timeout.toNat + 1) ids
        { success := true, total_requested := ids.length, ready_emulators := 0
          timeout_emulators := 0, failed_emulators := 0, results := [] } s).2.2.time - s.time)
      ((wait_batch_loop env timeout interval s.time (timeout.toNat + 1) ids
        { success := true, total_requested := ids.length, ready_emulators := 0
          timeout_emulators := 0, failed_emulators := 0, results := [] } s).2.1)
      ((wait_batch_loop env timeout interval s.time (timeout.toNat + 1) ids
        { success := true, total_requested := ids.length, ready_emulators := 0
          timeout_emulators := 0, failed_emulators := 0, results := [] } s).1)
    obtain ⟨t1, t2, t3⟩ := countMsg_timeoutRecs
      ((wait_batch_loop env timeout interval s.time (timeout.toNat + 1) ids
        { success := true, total_requested := ids.length, ready_emulators := 0
          timeout_emulators := 0, failed_emulators := 0, results := [] } s).2.2.time - s.time)
      ((wait_batch_loop env timeout interval s.time (timeout.toNat + 1) ids
        { success := true, total_requested := ids.length, ready_emulators := 0
          timeout_emulators := 0, failed_emulators := 0, results := [] } s).2.1)
    have hperm : ((newRecs.map ReadyRecord.index) ++
        (wait_batch_loop env timeout interval s.time (timeout.toNat + 1) ids
          { success := true, total_requested := ids.length, ready_emulators := 0
            timeout_emulators := 0, failed_emulators := 0, results := [] } s).2.1).Perm ids := h2
    refine ⟨?_, ?_, ?_, ?_, ?_⟩
    · simp only [g1, h1]
      rw [List.nil_append, List.map_append, List.map_map]
      refine List.Perm.trans ?_ hperm
      apply List.Perm.append_left
      have hmap : ∀ (l : List Nat) (w : Nat),
          l.map (ReadyRecord.index ∘ fun idx =>
            ({ index := idx, ready := false, adb_port := none, wait_time := w
               msg := ReadyMsg.timedOut } : ReadyRecord)) = l := by
        intro l w
        induction l with
        | nil => rfl
        | cons a t ih => simp only [List.map_cons, ih, Function.comp_apply]
      rw [hmap]
    · simp only [g1, g3, h1, h4]
      rw [List.nil_append, countMsg_append]
      omega
    · simp only [g1, g4, h1, h5]
      rw [List.nil_append, countMsg_append]
      omega
    · simp only [g1, g2, h1, h6]
      rw [List.nil_append, countMsg_append]
      omega
    · have hlen : newRecs.length +
          (wait_batch_loop env timeout interval s.time (timeout.toNat + 1) ids
            { success := true, total_requested := ids.length, ready_emulators := 0
              timeout_emulators := 0, failed_emulators := 0, results := [] } s).2.1.length
          = ids.length := by
        have := hperm.length_eq
        simpa using this
      have hpart := countMsg_partition newRecs
      simp only [g2, g3, g4, h4, h5, h6]
      omega


/-- Claim C8, counterexample: with a duplicated input list `[0, 0]`, the
instance 0 receives two result records (and the failed counter reaches 2),
so "each id gets exactly one result record" fails for inputs with repeated
ids. -/
theorem c8_counterexample :
    ((wait_batch_ready mgrEnvStopped [0, 0] 10 3 mgrState0).1.results.filter
       (fun r => r.index = 0)).length = 2 ∧
    (wait_batch_ready mgrEnvStopped [0, 0] 10 3 mgrState0).1.failed_emulators = 2 := by
  constructor <;> decide

/-- Claim C8, witness: the partition property at a concrete duplicate-free
input `[0, 1]`. -/
theorem c8_witness :
    (([0, 1] : List Nat)).Nodup ∧
    ((((wait_batch_ready mgrEnvStopped [0, 1] 10 3 mgrState0).1.results.map
        ReadyRecord.index).Perm [0, 1]) ∧
     (wait_batch_ready mgrEnvStopped [0, 1] 10 3 mgrState0).1.ready_emulators +
       (wait_batch_ready mgrEnvStopped [0, 1] 10 3 mgrState0).1.failed_emulators +
       (wait_batch_ready mgrEnvStopped [0, 1] 10 3 mgrState0).1.timeout_emulators
       = ([0, 1] : List Nat).length) :=
  ⟨by decide,
   (c8_partition mgrEnvStopped [0, 1] 10 3 mgrState0 (by decide)).1,
   (c8_partition mgrEnvStopped [0, 1] 10 3 mgrState0 (by decide)).2.2.2.2⟩


/-! ## Claim C1: the shutdown phase over the planned instances -/

/-- Every `ldconsole` invocation only prepends to the trace. -/
theorem trace_suffix_run_cmd (env : MgrEnv) (c : LCmd) (s : MgrState) :
    s.trace.IsSuffix (run_ldconsole_command env c s).2.trace :=
  List.suffix_cons _ _

theorem trace_suffix_is_running (env : MgrEnv) (idx : Nat) (fc : Bool) (s : MgrState) :
    s.trace.IsSuffix (is_running env idx fc s).2.trace := by
  unfold is_running run_ldconsole_command
  repeat' split
  all_goals try injections
  all_goals try subst_vars
  all_goals first
    | exact List.suffix_refl _
    | exact List.suffix_cons _ _


/-! ## Claim C1: trace monotonicity of the stop operations -/

/-- A single-instance stop only appends to the command trace. -/
theorem trace_suffix_stop_emulator (env : MgrEnv) (idx : Nat) (force : Bool)
    (timeout : ℤ) (s : MgrState) :
    s.trace.IsSuffix (stop_emulator env idx force timeout s).2.trace := by
  unfold stop_emulator run_ldconsole_command
  rcases hp : is_running env idx false s with ⟨running, s1⟩
  have h1 : s.trace <:+ s1.trace := by
    have h := trace_suffix_is_running env idx false s
    rw [hp] at h
    exact h
  cases running with
  | false => exact h1
  | true =>
      dsimp only
      cases hr : (env.exec s1.time (if force = true then LCmd.killall else LCmd.quit idx)).success with
      | false =>
          exact h1.trans (List.suffix_cons _ _)
      | true =>
          simp only [hr]
          rcases hq : is_running env idx false
              (msleep 2 { s1 with
                trace := TraceEv.cmd (if force = true then LCmd.killall else LCmd.quit idx) ::
                  s1.trace }) with ⟨still, s2⟩
          have h2 : (TraceEv.cmd (if force = true then LCmd.killall else LCmd.quit idx) ::
              s1.trace) <:+ s2.trace := by
            have h := trace_suffix_is_running env idx false
              (msleep 2 { s1 with
                trace := TraceEv.cmd (if force = true then LCmd.killall else LCmd.quit idx) ::
                  s1.trace })
            rw [hq] at h
            exact h
          cases still with
          | false => exact (h1.trans (List.suffix_cons _ _)).trans h2
          | true => exact (h1.trans (List.suffix_cons _ _)).trans h2

/-- The forced-stop verification loop only appends to the command trace. -/
theorem trace_suffix_force_verify (env : MgrEnv) (killTime : ℚ) :
    ∀ (ids : List Nat) (acc : BatchStopResult) (s : MgrState),
      s.trace.IsSuffix (stop_batch_force_verify env killTime ids acc s).2.trace := by
  intro ids
  induction ids with
  | nil => intro acc s; exact List.suffix_refl _
  | cons idx rest ih =>
      intro acc s
      simp only [stop_batch_force_verify]
      rcases hq : is_running env idx true (msleep 1 s) with ⟨running, s1⟩
      have h1 : s.trace <:+ s1.trace := by
        have h := trace_suffix_is_running env idx true (msleep 1 s)
        rw [hq] at h
        exact h
      cases running with
      | false => exact h1.trans (ih _ _)
      | true => exact h1.trans (ih _ _)

/-- The individual-stop loop only appends to the command trace. -/
theorem trace_suffix_stop_individual (env : MgrEnv) (timeout : ℤ) :
    ∀ (ids : List Nat) (acc : BatchStopResult) (s : MgrState),
      s.trace.IsSuffix (stop_batch_individual env timeout ids acc s).2.trace := by
  intro ids
  induction ids with
  | nil => intro acc s; exact List.suffix_refl _
  | cons idx rest ih =>
      intro acc s
      simp only [stop_batch_individual]
      rcases hq : stop_emulator env idx false timeout s with ⟨r, s1⟩
      have h1 : s.trace <:+ s1.trace := by
        have h := trace_suffix_stop_emulator env idx false timeout s
        rw [hq] at h
        exact h
      exact h1.trans (ih _ _)

/-- A batch stop only appends to the command trace. -/
theorem trace_suffix_stop_batch (env : MgrEnv) (ids : List Nat) (mp : Nat)
    (force : Bool) (timeout : ℤ) (s : MgrState) :
    s.trace.IsSuffix (stop_batch env ids mp force timeout s).2.trace := by
  unfold stop_batch run_ldconsole_command
  by_cases hids : ids = []
  · simp only [hids]
    exact List.suffix_cons _ _
  · simp only [hids]
    cases force with
    | false =>
        dsimp only
        rcases hq : stop_batch_individual env timeout ids
            { success := true, total_requested := ids.length, stopped_successfully := 0
              already_stopped := 0, failed := 0, results := [] }
            { s with trace := TraceEv.stopBatchCall ids false :: s.trace } with ⟨acc, s1⟩
        have h1 : (TraceEv.stopBatchCall ids false :: s.trace) <:+ s1.trace := by
          have h := trace_suffix_stop_individual env timeout ids
            { success := true, total_requested := ids.length, stopped_successfully := 0
              already_stopped := 0, failed := 0, results := [] }
            { s with trace := TraceEv.stopBatchCall ids false :: s.trace }
          rw [hq] at h
          exact h
        exact (List.suffix_cons _ _).trans h1
    | true =>
        dsimp only
        cases hk : (env.exec s.time LCmd.killall).success with
        | false =>
            simp only [hk]
            exact (List.suffix_cons _ _).trans (List.suffix_cons _ _)
        | true =>
            simp only [hk]
            rcases hq : stop_batch_force_verify env
                (env.exec s.time LCmd.killall).execTime ids
                { success := true, total_requested := ids.length, stopped_successfully := 0
                  already_stopped := 0, failed := 0, results := [] }
                { cache := s.cache, time := s.time
                  trace := TraceEv.cmd LCmd.killall ::
                    TraceEv.stopBatchCall ids true :: s.trace } with ⟨acc, s1⟩
            have h1 : (TraceEv.cmd LCmd.killall ::
                TraceEv.stopBatchCall ids true :: s.trace) <:+ s1.trace := by
              have h := trace_suffix_force_verify env
                (env.exec s.time LCmd.killall).execTime ids
                { success := true, total_requested := ids.length, stopped_successfully := 0
                  already_stopped := 0, failed := 0, results := [] }
                { cache := s.cache, time := s.time
                  trace := TraceEv.cmd LCmd.killall ::
                    TraceEv.stopBatchCall ids true :: s.trace }
              rw [hq] at h
              exact h
            exact ((List.suffix_cons _ _).trans (List.suffix_cons _ _)).trans h1

/-- `stop_batch` records its invocation (the requested index list and the
force flag) in the trace. -/
theorem stop_batch_emits (env : MgrEnv) (ids : List Nat) (mp : Nat) (force : Bool)
    (timeout : ℤ) (s : MgrState) :
    TraceEv.stopBatchCall ids force ∈ (stop_batch env ids mp force timeout s).2.trace := by
  unfold stop_batch run_ldconsole_command
  by_cases hids : ids = []
  · simp only [hids]
    exact List.mem_cons_self _ _
  · simp only [hids]
    cases force with
    | false =>
        dsimp only
        rcases hq : stop_batch_individual env timeout ids
            { success := true, total_requested := ids.length, stopped_successfully := 0
              already_stopped := 0, failed := 0, results := [] }
            { s with trace := TraceEv.stopBatchCall ids false :: s.trace } with ⟨acc, s1⟩
        have h1 : (TraceEv.stopBatchCall ids false :: s.trace) <:+ s1.trace := by
          have h := trace_suffix_stop_individual env timeout ids
            { success := true, total_requested := ids.length, stopped_successfully := 0
              already_stopped := 0, failed := 0, results := [] }
            { s with trace := TraceEv.stopBatchCall ids false :: s.trace }
          rw [hq] at h
          exact h
        exact h1.subset (List.mem_cons_self _ _)
    | true =>
        dsimp only
        cases hk : (env.exec s.time LCmd.killall).success with
        | false =>
            simp only [hk]
            exact List.mem_cons_of_mem _ (List.mem_cons_self _ _)
        | true =>
            simp only [hk]
            rcases hq : stop_batch_force_verify env
                (env.exec s.time LCmd.killall).execTime ids
                { success := true, total_requested := ids.length, stopped_successfully := 0
                  already_stopped := 0, failed := 0, results := [] }
                { cache := s.cache, time := s.time
                  trace := TraceEv.cmd LCmd.killall ::
                    TraceEv.stopBatchCall ids true :: s.trace } with ⟨acc, s1⟩
            have h1 : (TraceEv.cmd LCmd.killall ::
                TraceEv.stopBatchCall ids true :: s.trace) <:+ s1.trace := by
              have h := trace_suffix_force_verify env
                (env.exec s.time LCmd.killall).execTime ids
                { success := true, total_requested := ids.length, stopped_successfully := 0
                  already_stopped := 0, failed := 0, results := [] }
                { cache := s.cache, time := s.time
                  trace := TraceEv.cmd LCmd.killall ::
                    TraceEv.stopBatchCall ids true :: s.trace }
              rw [hq] at h
              exact h
            exact h1.subset (List.mem_cons_of_mem _ (List.mem_cons_self _ _))

/-- The shutdown phase over a non-empty id list records a (graceful) batch
stop over exactly those ids in the trace. -/
theorem phase5_emits (env : OrchEnv) (ids : List Nat) (s : OrchState) (h : ids ≠ []) :
    TraceEv.stopBatchCall ids false ∈ (phase5_shutdown env ids s).2.mgr.trace := by
  unfold phase5_shutdown
  rw [if_neg h]
  rcases hr : stop_batch env.mgr ids 5 false 30 s.mgr with ⟨r, m⟩
  have hmem : TraceEv.stopBatchCall ids false ∈ m.trace := by
    have h2 := stop_batch_emits env.mgr ids 5 false 30 s.mgr
    rw [hr] at h2
    exact h2
  dsimp only
  split
  · split
    · exact hmem
    · rcases hq : stop_batch env.mgr
          ((r.results.filter (fun rcd => rcd.success = false)).map BatchStopRecord.index)
          5 true 15 m with ⟨fr, m2⟩
      have hs := trace_suffix_stop_batch env.mgr
        ((r.results.filter (fun rcd => rcd.success = false)).map BatchStopRecord.index)
        5 true 15 m
      rw [hq] at hs
      rw [hq]
      exact hs.subset hmem
  · exact hmem

/-- A plan with no emulators starts nothing. -/
theorem phase2_startup_nil (env : OrchEnv) (plan : BatchPlan) (s : OrchState)
    (h : plan.emulators = []) :
    (phase2_startup env plan s).1.started_successfully = 0 := by
  unfold phase2_startup
  rw [h]
  dsimp only
  rcases ha : apply_profile_to_batch env.mgr env.profiles ([].map Emu.index)
      plan.recommended_profile false s.mgr with ⟨u, m⟩
  simp [start_batch]

/-- Claim C1 (amended): whenever the plan is executable and at least one
instance started successfully in the startup phase, the shutdown phase
issues a (graceful) batch stop over every planned instance id — on the
zero-ready path as well as on the normal path; the startup hypothesis is
necessary (see the counterexample). -/
theorem c1_amended (env : OrchEnv) (pf : Option String) (me : Option ℤ) (s : OrchState)
    (hplan : (phase1_planning env pf me s).1.can_execute = true)
    (hstart : 1 ≤ (phase2_startup env (phase1_planning env pf me s).1
        (phase1_planning env pf me s).2).1.started_successfully) :
    TraceEv.stopBatchCall ((phase1_planning env pf me s).1.emulators.map Emu.index) false ∈
      (execute_smart_batch env pf me s).2.mgr.trace := by
  unfold execute_smart_batch
  rcases hp1 : phase1_planning env pf me s with ⟨plan, s1⟩
  rw [hp1] at hplan hstart
  have hpe : plan.can_execute = true := hplan
  dsimp only
  rw [if_neg (by simp [hpe])]
  have hstart' : 1 ≤ (phase2_startup env plan s1).1.started_successfully := hstart
  rcases hp2 : phase2_startup env plan s1 with ⟨startup, s2⟩
  rw [hp2] at hstart'
  have hss : 1 ≤ startup.started_successfully := hstart'
  dsimp only
  rw [if_neg (by omega)]
  have hne : plan.emulators.map Emu.index ≠ [] := by
    intro hnil
    have hnil' : plan.emulators = [] := List.map_eq_nil_iff.mp hnil
    have h0 := phase2_startup_nil env plan s1 hnil'
    rw [hp2] at h0
    have h0' : startup.started_successfully = 0 := h0
    omega
  rcases hp3 : phase3_readiness env
      ((startup.results.filter (fun p => p.2.success ∧ p.2.already_running = false)).map
        Prod.fst) s2 with ⟨readiness, s3⟩
  rw [hp3]
  dsimp only
  by_cases hre : readiness.ready_emulators = 0
  · rw [if_pos hre]
    exact phase5_emits env (plan.emulators.map Emu.index) s3 hne
  · rw [if_neg hre]
    exact phase5_emits env (plan.emulators.map Emu.index) _ hne

/-- Control surface where `list2` succeeds listing instance 0 as stopped but
every launch dialect fails. -/
def mgrEnvLaunchFail : MgrEnv :=
  { exec := fun _ c =>
      match c with
      | LCmd.list2 => { success := true, rows := [(0, false)], execTime := 1 }
      | LCmd.launch _ _ => { success := false, rows := [], execTime := 1 }
      | _ => { success := true, rows := [], execTime := 1 }
    adbTest := fun _ _ => false
    adbDevices := fun _ => none }

/-- Control surface where every command succeeds, instance 0 is listed as
running exactly in the time window [1, 12), and ADB answers before time
12 — so a launched instance comes up, is ready at once, and is gone again
by the time the forced-stop verification probes it. -/
def mgrEnvWindow : MgrEnv :=
  { exec := fun t c =>
      match c with
      | LCmd.list2 =>
          { success := true, rows := [(0, decide (1 ≤ t ∧ t < 12))], execTime := 1 }
      | _ => { success := true, rows := [], execTime := 1 }
    adbTest := fun t _ => decide (t < 12)
    adbDevices := fun _ => none }

/-- The registry entry for instance 0. -/
def emu0 : Emu := { index := 0, name := "LDPlayer-0", adb_port := none }

/-- Orchestrator environment with a healthy host, one enabled emulator and
failing launch commands. -/
def orchEnvLaunchFail : OrchEnv :=
  { mon := monEnvLow, mgr := mgrEnvLaunchFail, thresholds := defaultThresholds
    profiles := defaultProfiles, enabled_emulators := fun _ => [emu0]
    job_ok := fun _ _ => true, job_duration := fun _ _ => 0 }

/-- Orchestrator environment with a healthy host, one enabled emulator and a
fully cooperating control surface. -/
def orchEnvHealthy : OrchEnv :=
  { mon := monEnvLow, mgr := mgrEnvWindow, thresholds := defaultThresholds
    profiles := defaultProfiles, enabled_emulators := fun _ => [emu0]
    job_ok := fun _ _ => true, job_duration := fun _ _ => 0 }

/-- A fresh orchestrator state. -/
def orchState0 : OrchState := { mgr := mgrState0, mon := monState0 }

/-- Trace events that stop instances: `quit` and `killall` commands and
batch-stop invocations. -/
def stops_instances : TraceEv → Bool
  | TraceEv.cmd (LCmd.quit _) => true
  | TraceEv.cmd LCmd.killall => true
  | TraceEv.stopBatchCall _ _ => true
  | _ => false

/-- Claim C1 counterexample: a batch whose plan is executable (one planned
instance, id 0) but whose startup phase starts nothing returns without any
shutdown — no batch stop is invoked and no stop-type command is issued at
all, and the shutdown phase never ran. -/
theorem c1_counterexample :
    (phase1_planning orchEnvLaunchFail none none orchState0).1.can_execute = true ∧
    (phase1_planning orchEnvLaunchFail none none orchState0).1.emulators.map Emu.index
      = [0] ∧
    (execute_smart_batch orchEnvLaunchFail none none orchState0).1.shutdown_results
      = none ∧
    ((execute_smart_batch orchEnvLaunchFail none none orchState0).2.mgr.trace.filter
      stops_instances) = [] := by
  decide

theorem c1_witness :
    ((phase1_planning orchEnvHealthy none none orchState0).1.can_execute = true ∧
     1 ≤ (phase2_startup orchEnvHealthy
            (phase1_planning orchEnvHealthy none none orchState0).1
            (phase1_planning orchEnvHealthy none none orchState0).2).1.started_successfully) ∧
    TraceEv.stopBatchCall
        ((phase1_planning orchEnvHealthy none none orchState0).1.emulators.map Emu.index)
        false ∈
      (execute_smart_batch orchEnvHealthy none none orchState0).2.mgr.trace :=
  ⟨⟨by decide, by decide⟩,
   c1_amended orchEnvHealthy none none orchState0 (by decide) (by decide)⟩

end BLord
